import Mathlib

/-!
Verification development for the racesim backend.

Shallow embedding conventions:
* Python floats are modelled as exact rationals (`ℚ`).  The verified
  properties are order- and structure-level facts that hold for exact
  arithmetic; float rounding is not modelled.
* Python `round(x, k)` is modelled as decimal rounding half-to-even
  (`roundTo`), matching the documented CPython behaviour on the decimal view.
* Seeded per-entrant randomness (`random.Random(sha256(raceId:playerId))`)
  is a deterministic function of its seed; it is modelled by an explicit
  oracle `rngOf : String → String → EntrantRand` supplied to the simulator.
  The process-global `random` module used by `_luck_tag` is modelled by a
  separate oracle `gtags : ℕ → ℕ` (the k-th global `choice` pick), because
  its state is shared across calls and is not derived from the race.
* The stable Python `list.sort` is modelled by a stable insertion sort
  (`sortDesc`); the output sequence of any stable sort by a total key is
  unique, so this is observationally identical.
-/

namespace RaceSim

/-! ## Decimal rounding (Python `round`) -/

/-- Round a rational to the nearest integer, ties to even
(CPython `round` semantics on the decimal view). -/
def roundHalfEven (x : ℚ) : ℤ :=
  if x - (Int.floor x : ℚ) < 1/2 then Int.floor x
  else if 1/2 < x - (Int.floor x : ℚ) then Int.floor x + 1
  else if Even (Int.floor x) then Int.floor x else Int.floor x + 1

/-- Python `round(x, k)`: round to `k` decimal places, ties to even. -/
def roundTo (k : ℕ) (x : ℚ) : ℚ :=
  ((roundHalfEven (x * (10:ℚ)^k) : ℤ) : ℚ) / (10:ℚ)^k

/-! ## Car data model (models.py) -/

/-- Equipment tier (`models.Tier`). -/
inductive Tier where
  | standard
  | upgraded
  | performance
deriving DecidableEq, Repr, Inhabited

/-- The six car slot names (`config.SLOT_NAMES`). -/
inductive SlotName where
  | engine
  | tires
  | suspension
  | aero
  | fuel
  | electronics
deriving DecidableEq, Repr, Inhabited

/-- `config.SLOT_NAMES`, in source order. -/
def slotNames : List SlotName :=
  [.engine, .tires, .suspension, .aero, .fuel, .electronics]

/-- `config.TIER_SCORES`. -/
def tierScore : Tier → ℚ
  | .standard => 40
  | .upgraded => 70
  | .performance => 100

/-- `models.SlotPart`: a tier plus a readiness percentage. -/
structure SlotPart where
  tier : Tier := .standard
  readiness : ℚ := 100
deriving DecidableEq, Repr, Inhabited

/-- `models.CarSlots`: six named slots. -/
structure CarSlots where
  engine : SlotPart := {}
  tires : SlotPart := {}
  suspension : SlotPart := {}
  aero : SlotPart := {}
  fuel : SlotPart := {}
  electronics : SlotPart := {}
deriving DecidableEq, Repr, Inhabited

/-- `CarSlots.get_slot`. -/
def CarSlots.getSlot (c : CarSlots) : SlotName → SlotPart
  | .engine => c.engine
  | .tires => c.tires
  | .suspension => c.suspension
  | .aero => c.aero
  | .fuel => c.fuel
  | .electronics => c.electronics

/-- `config.SLOT_WEIGHT_UNITS` (weight units for weight_limit events). -/
def slotWeightUnits (s : SlotName) (t : Tier) : ℚ :=
  match s, t with
  | .engine, .standard => 10
  | .engine, .upgraded => 14
  | .engine, .performance => 18
  | .tires, .standard => 8
  | .tires, .upgraded => 10
  | .tires, .performance => 13
  | .suspension, .standard => 6
  | .suspension, .upgraded => 8
  | .suspension, .performance => 11
  | .aero, .standard => 5
  | .aero, .upgraded => 7
  | .aero, .performance => 10
  | .fuel, .standard => 9
  | .fuel, .upgraded => 11
  | .fuel, .performance => 15
  | .electronics, .standard => 4
  | .electronics, .upgraded => 6
  | .electronics, .performance => 9

/-- `config.WEIGHT_LIMIT`. -/
def weightLimit : ℚ := 70

/-- `config.EVENT_SLOT_WEIGHTS`.  The Python dict lookup raises `KeyError`
for an unknown event type; the table only ever receives the eight scheduled
event strings, for which this total function agrees with the source.
Unknown events default to weight 1 here. -/
def eventSlotWeights (e : String) (s : SlotName) : ℚ :=
  if e = "sprint" then (if s = .engine then 3/2 else 1)
  else if e = "endurance" then (if s = .tires then 7/5 else if s = .fuel then 7/5 else 1)
  else if e = "wet_track" then
    (if s = .tires then 3/2 else if s = .suspension then 13/10 else 1)
  else if e = "night_race" then (if s = .electronics then 3/2 else 1)
  else if e = "altitude" then
    (if s = .engine then 4/5 else if s = .suspension then 7/5
     else if s = .aero then 13/10 else 1)
  else if e = "spec_class" then (if s = .electronics then 7/5 else 1)
  else 1

/-- `config.WEAR_MULTIPLIERS.get(event, 1.0)`. -/
def wearMultiplier (e : String) : ℚ :=
  if e = "endurance" then 9/5
  else if e = "time_trial" then 4/5
  else if e = "wet_track" then 6/5
  else if e = "altitude" then 11/10
  else 1

/-- `config.EVENT_STRESSED_SLOTS.get(event, [])`. -/
def stressedSlots (e : String) : List SlotName :=
  if e = "sprint" then [.engine]
  else if e = "endurance" then [.fuel, .tires]
  else if e = "wet_track" then [.tires, .suspension]
  else if e = "night_race" then [.electronics]
  else if e = "altitude" then [.suspension, .aero]
  else if e = "spec_class" then [.electronics]
  else if e = "weight_limit" then [.aero, .fuel]
  else []

/-- `config.BASE_WEAR_PCT`. -/
def baseWearPct : ℚ := 15

/-! ## Event-type string constants used by the engine -/

def strTimeTrial : String := "time_trial"
def strWetTrack : String := "wet_track"
def strNightRace : String := "night_race"
def strEndurance : String := "endurance"
def strWeightLimit : String := "weight_limit"
def strSprint : String := "sprint"

/-! ## Race / result data model (models.py) -/

/-- `models.RaceEntry` (fields used by the engine). -/
structure RaceEntry where
  player_id : String
  username : String
  locked_car : Option CarSlots := none
deriving DecidableEq, Repr, Inhabited

/-- `models.Race` (fields used by the engine). -/
structure Race where
  id : String
  event_type : String
  entries : List RaceEntry := []
deriving DecidableEq, Repr, Inhabited

/-- `models.SlotResult`. -/
structure SlotResult where
  tier : Tier
  readiness : ℚ
  tier_score : ℚ
  event_weight : ℚ
  weighted_score : ℚ
  readiness_penalty : ℚ := 0
deriving DecidableEq, Repr, Inhabited

/-- `models.EntryResult`. -/
structure EntryResult where
  player_id : String
  username : String
  position : ℕ
  result_score : ℚ
  build_quality : ℚ
  event_fit : ℚ
  readiness_score : ℚ
  luck_delta : ℚ
  counterfactual_position : ℕ
  per_slot : List (SlotName × SlotResult)
  luck_tag : String
  dnf : Bool := false
  dnf_slot : Option SlotName := none
deriving DecidableEq, Repr, Inhabited

/-! ## Per-entry computations (engine.py) -/

/-- `engine._build_quality`. -/
def buildQuality (car : CarSlots) : ℚ :=
  (slotNames.map (fun s => tierScore (car.getSlot s).tier)).sum / (slotNames.length : ℚ)

/-- `engine._event_fit`: weighted tier fit plus event-specific penalties,
returning the fit and the per-slot breakdown. -/
def eventFit (car : CarSlots) (eventType : String) : ℚ × List (SlotName × SlotResult) :=
  let totalW : ℚ := (slotNames.map (eventSlotWeights eventType)).sum
  let perSlot : List (SlotName × SlotResult) :=
    slotNames.map (fun s =>
      let part := car.getSlot s
      let ts := tierScore part.tier
      let w := eventSlotWeights eventType s
      (s, { tier := part.tier, readiness := part.readiness, tier_score := ts,
            event_weight := w, weighted_score := ts * w / totalW,
            readiness_penalty := 0 }))
  let weightedSum : ℚ :=
    (slotNames.map (fun s => tierScore (car.getSlot s).tier * eventSlotWeights eventType s)).sum
  let rawFit := weightedSum / totalW
  let penalty : ℚ :=
    if eventType = strWetTrack ∧ car.tires.tier = .standard then 15
    else if eventType = strNightRace ∧ car.electronics.tier = .standard then 10
    else if eventType = strEndurance then
      (if car.tires.readiness < 50 ∨ car.fuel.readiness < 50 then 10 else 0)
    else if eventType = strWeightLimit then
      (if weightLimit < (slotNames.map (fun s => slotWeightUnits s (car.getSlot s).tier)).sum
       then 20 else 0)
    else 0
  (max 0 (rawFit - penalty), perSlot)

/-- One step of the `engine._readiness_score` loop: accumulate the
(possibly double-penalized) readiness of slot `s` and update the
per-slot breakdown with the penalty. -/
def readinessStep (car : CarSlots) (acc : ℚ × List (SlotName × SlotResult)) (s : SlotName) :
    ℚ × List (SlotName × SlotResult) :=
  let r := (car.getSlot s).readiness
  if r < 50 then
    let penalty := 50 - r
    let r2 := max 0 (r - penalty)
    (acc.1 + r2,
     acc.2.map (fun p => if p.1 = s then (p.1, { p.2 with readiness_penalty := penalty }) else p))
  else
    (acc.1 + r, acc.2)

/-- `engine._readiness_score`: mean slot readiness with the below-50 double
penalty, also updating the per-slot breakdown. -/
def readinessScore (car : CarSlots) (perSlot : List (SlotName × SlotResult)) :
    ℚ × List (SlotName × SlotResult) :=
  let acc := slotNames.foldl (readinessStep car) (0, perSlot)
  (acc.1 / (slotNames.length : ℚ), acc.2)

/-- Helper recursion of `engine._check_dnf`: walk the slots in order,
consuming one uniform draw per slot whose readiness is below 20. -/
def checkDnfAux (car : CarSlots) (rolls : ℕ → ℚ) : List SlotName → ℕ → Option SlotName
  | [], _ => none
  | s :: rest, k =>
    if (car.getSlot s).readiness < 20 then
      if rolls k < 1/10 then some s else checkDnfAux car rolls rest (k + 1)
    else checkDnfAux car rolls rest k

/-- `engine._check_dnf`: first slot below 20 percent readiness whose 10
percent failure roll succeeds, if any. -/
def checkDnf (car : CarSlots) (rolls : ℕ → ℚ) : Option SlotName :=
  checkDnfAux car rolls slotNames 0

/-- `engine._LUCK_TAGS_POSITIVE`. -/
def luckTagsPositive : List String :=
  ["Perfect run through all sectors",
   "Clean air throughout",
   "Flawless pit strategy",
   "Ideal conditions hit at the right moment",
   "Competitor incident cleared the way"]

/-- `engine._LUCK_TAGS_NEGATIVE`. -/
def luckTagsNegative : List String :=
  ["Mechanical issue on lap 3",
   "Traffic incident cost time",
   "Safety car negated the lead",
   "Unexpected surface grip loss",
   "Debris on track forced evasion"]

/-- `engine._LUCK_TAG_NEUTRAL`. -/
def luckTagNeutral : String := "Uneventful run — luck was a non-factor"

/-- Whether `engine._luck_tag` consumes a draw from the process-global
`random` module (it calls `random.choice` only outside the neutral band). -/
def luckTagConsumes (delta : ℚ) : Bool :=
  decide (5 < delta) || decide (delta < -5)

/-- `engine._luck_tag`.  `pick` is the index drawn from the process-global
`random.choice` call — shared mutable state, not the per-entrant RNG. -/
def luckTag (delta : ℚ) (pick : ℕ) : String :=
  if 5 < delta then luckTagsPositive.getD (pick % luckTagsPositive.length) luckTagNeutral
  else if delta < -5 then luckTagsNegative.getD (pick % luckTagsNegative.length) luckTagNeutral
  else luckTagNeutral

/-! ## The race simulator (engine.simulate_race) -/

/-- The deterministic per-entrant random stream produced by
`engine._seeded_rng(race_id, player_id)`: `rolls` are the successive
`rng.random()` outputs consumed by the DNF check, `luck` is the
`rng.uniform(-range, range)` draw. -/
structure EntrantRand where
  rolls : ℕ → ℚ
  luck : ℚ

/-- Python `max(0.0, min(100.0, x))`. -/
def clampScore (x : ℚ) : ℚ := max 0 (min 100 x)

/-- The intermediate per-entry dict built inside `simulate_race`. -/
structure RawResult where
  player_id : String
  username : String
  score : ℚ
  build_quality : ℚ
  event_fit : ℚ
  readiness_score : ℚ
  luck_delta : ℚ
  per_slot : List (SlotName × SlotResult)
  dnf : Bool
  dnf_slot : Option SlotName
deriving DecidableEq, Repr, Inhabited

/-- The per-entry computation block of `simulate_race` (engine.py lines
147-178) for one entry with a locked car. -/
def rawOf (raceId eventType : String) (rngOf : String → String → EntrantRand)
    (e : RaceEntry) (car : CarSlots) : RawResult :=
  let rand := rngOf raceId e.player_id
  let dnfSlot := checkDnf car rand.rolls
  let dnf := dnfSlot.isSome
  let bq := buildQuality car
  let efp := eventFit car eventType
  let rsp := readinessScore car efp.2
  let luck := rand.luck
  let bqWeight : ℚ := if eventType = strTimeTrial then 1/2 else 2/5
  let score : ℚ :=
    if dnf then 0
    else clampScore (bq * bqWeight + efp.1 * (35/100) + rsp.1 * (25/100) + luck)
  { player_id := e.player_id, username := e.username, score := score,
    build_quality := bq, event_fit := efp.1, readiness_score := rsp.1,
    luck_delta := luck, per_slot := rsp.2, dnf := dnf, dnf_slot := dnfSlot }

/-- Stable descending insertion by key (helper for `sortDesc`). -/
def insertDesc {α : Type} (key : α → ℚ) (a : α) : List α → List α
  | [] => [a]
  | b :: l => if key b ≤ key a then a :: b :: l else b :: insertDesc key a l

/-- Stable descending sort by key.  Python `list.sort(key=…, reverse=True)`
is stable; the output of a stable sort by a total key is unique, so this
insertion sort is observationally identical to Timsort. -/
def sortDesc {α : Type} (key : α → ℚ) : List α → List α
  | [] => []
  | a :: l => insertDesc key a (sortDesc key l)

/-- Helper recursion for `dictRank`. -/
def dictRankAux (pid : String) : List (String × ℚ) → ℕ → ℕ → ℕ
  | [], _, acc => acc
  | p :: rest, i, acc => dictRankAux pid rest (i + 1) (if p.1 = pid then i + 1 else acc)

/-- The `cf_rank` dict of `simulate_race`:
`cf_rank[pid] = index of pid in neutral_scores + 1`, with the Python dict
comprehension last-entry-wins semantics; a missing pid yields 0
(the Python code would raise, but every looked-up pid is present). -/
def dictRank (pairs : List (String × ℚ)) (pid : String) : ℕ :=
  dictRankAux pid pairs 0 0

/-- Build one `EntryResult` from a raw result (engine.py lines 194-208):
round the exposed scores to two decimals, attach the assigned position,
the counterfactual rank and the luck tag. -/
def mkEntryResult (cf : String → ℕ) (pos : ℕ) (tag : String) (r : RawResult) : EntryResult :=
  { player_id := r.player_id, username := r.username, position := pos,
    result_score := roundTo 2 r.score,
    build_quality := roundTo 2 r.build_quality,
    event_fit := roundTo 2 r.event_fit,
    readiness_score := roundTo 2 r.readiness_score,
    luck_delta := roundTo 2 r.luck_delta,
    counterfactual_position := cf r.player_id,
    per_slot := r.per_slot,
    luck_tag := tag,
    dnf := r.dnf, dnf_slot := r.dnf_slot }

/-- The final loop of `simulate_race` (engine.py lines 192-208): assign
positions in sorted order and build `EntryResult`s.  `gcount` counts the
process-global `random.choice` calls already consumed by `_luck_tag`. -/
def buildResults (gtags : ℕ → ℕ) (cf : String → ℕ) :
    List RawResult → ℕ → ℕ → List EntryResult
  | [], _, _ => []
  | r :: rest, pos, gcount =>
    mkEntryResult cf pos (luckTag r.luck_delta (gtags gcount)) r ::
    buildResults gtags cf rest (pos + 1)
      (gcount + if luckTagConsumes r.luck_delta then 1 else 0)

/-- How many process-global `random.choice` calls `_luck_tag` consumes
over a list of raw results. -/
def tagCount (l : List RawResult) : ℕ :=
  (l.filter (fun r => luckTagConsumes r.luck_delta)).length

/-- The neutral (luck-zeroed) re-scoring of `simulate_race` (engine.py
lines 184-188): `bq*w + ef*0.35 + rs*0.25`, with no DNF zeroing and no
clamping. -/
def neutralScore (bqWeight : ℚ) (r : RawResult) : ℚ :=
  r.build_quality * bqWeight + r.event_fit * (35/100) + r.readiness_score * (25/100)

/-- The build-quality weight of `simulate_race` (0.50 for time trials,
0.40 otherwise). -/
def bqWeightOf (eventType : String) : ℚ :=
  if eventType = strTimeTrial then 1/2 else 2/5

/-- The `raw_results` list of `simulate_race`: one raw result per entry
with a locked car, entries without one silently skipped (engine.py lines
147-150). -/
def rawList (rngOf : String → String → EntrantRand) (race : Race) : List RawResult :=
  race.entries.filterMap (fun e =>
    e.locked_car.map (fun car => rawOf race.id race.event_type rngOf e car))

/-- `raw_results` after the descending stable sort by score. -/
def sortedRaw (rngOf : String → String → EntrantRand) (race : Race) : List RawResult :=
  sortDesc (fun r => r.score) (rawList rngOf race)

/-- The `neutral_scores` pair list of `simulate_race` (luck zeroed,
computed over the sorted raw results). -/
def neutralPairs (rngOf : String → String → EntrantRand) (race : Race) :
    List (String × ℚ) :=
  (sortedRaw rngOf race).map (fun r => (r.player_id, neutralScore (bqWeightOf race.event_type) r))

/-- The `cf_rank` lookup of `simulate_race`. -/
def cfRankOf (rngOf : String → String → EntrantRand) (race : Race) : String → ℕ :=
  dictRank (sortDesc (fun p => p.2) (neutralPairs rngOf race))

/-- `engine.simulate_race`.  `rngOf` is the deterministic seeded
per-entrant RNG; `gtags` is the process-global RNG consumed by
`_luck_tag` via `random.choice` (shared state across calls). -/
def simulate_race (rngOf : String → String → EntrantRand) (gtags : ℕ → ℕ)
    (race : Race) : List EntryResult :=
  buildResults gtags (cfRankOf rngOf race) (sortedRaw rngOf race) 1 0

/-! ## Track generation (track_gen.py) -/

/-- A grid cell. -/
abbrev GridPos := ℤ × ℤ

/-- `models.TileData`. -/
structure TileData where
  x : ℤ
  y : ℤ
  type : String
  orientation : String
deriving DecidableEq, Repr, Inhabited

/-- `models.TrackData` (the path is kept as coordinate pairs). -/
structure TrackData where
  grid_width : ℕ
  grid_height : ℕ
  tiles : List TileData
  path_order : List GridPos
deriving DecidableEq, Repr, Inhabited

/-- The four walk directions, in source order. -/
def walkDirs : List GridPos := [(1, 0), (-1, 0), (0, 1), (0, -1)]

/-- `track_gen._COMPASS`: label of a unit move.  A non-unit delta raises
`KeyError` in the source; it is unreachable there, and maps to an empty
label here (which no curve key matches, giving the same straight default
as the surrounding code). -/
def compassLabel (d : GridPos) : String :=
  if d = ((1, 0) : GridPos) then "E"
  else if d = ((-1, 0) : GridPos) then "W"
  else if d = ((0, 1) : GridPos) then "S"
  else if d = ((0, -1) : GridPos) then "N"
  else ""

/-- `track_gen._CURVE_DIRS`: the frozenset keys are unordered label pairs,
so both orders are matched. -/
def curveOrientation (a b : String) : Option String :=
  if (a = "N" ∧ b = "E") ∨ (a = "E" ∧ b = "N") then some ("NE")
  else if (a = "N" ∧ b = "W") ∨ (a = "W" ∧ b = "N") then some ("NW")
  else if (a = "S" ∧ b = "E") ∨ (a = "E" ∧ b = "S") then some ("SE")
  else if (a = "S" ∧ b = "W") ∨ (a = "W" ∧ b = "S") then some ("SW")
  else none

/-- `track_gen._tile_type_orientation`. -/
def tileTypeOrientation (cameFrom goingTo : GridPos) : String × String :=
  if cameFrom = goingTo then
    if cameFrom.1 ≠ 0 then ("straight", "horizontal") else ("straight", "vertical")
  else
    match curveOrientation (compassLabel cameFrom) (compassLabel goingTo) with
    | some o => ("curve", o)
    | none => ("straight", "horizontal")

/-- `track_gen._build_track_data`: `path` ends with a duplicate of its
first cell; `path_order` drops it, and each tile is classified from its
cyclic predecessor and successor. -/
def buildTrackData (path : List GridPos) (n : ℕ) : TrackData :=
  let po := path.dropLast
  let m := po.length
  let tiles := (List.range m).map (fun i =>
    let p := po.getD i ((0, 0) : GridPos)
    let prev := po.getD ((i + m - 1) % m) ((0, 0) : GridPos)
    let nxt := po.getD ((i + 1) % m) ((0, 0) : GridPos)
    let cameFrom : GridPos := (p.1 - prev.1, p.2 - prev.2)
    let goingTo : GridPos := (nxt.1 - p.1, nxt.2 - p.2)
    let tor := tileTypeOrientation cameFrom goingTo
    { x := p.1, y := p.2, type := tor.1, orientation := tor.2 })
  { grid_width := n, grid_height := n, tiles := tiles, path_order := po }

/-- Grid adjacency of two cells (the consecutively grid-adjacent property of the spec):
they differ by exactly one unit step in exactly one axis. -/
def isAdj (a b : GridPos) : Bool :=
  decide ((a.1 - b.1).natAbs + (a.2 - b.2).natAbs = 1)

/-- Whether a cell lies on the n×n grid. -/
def inGrid (n : ℕ) (p : GridPos) : Bool :=
  decide (0 ≤ p.1) && decide (p.1 < (n : ℤ)) && decide (0 ≤ p.2) && decide (p.2 < (n : ℤ))

/-- The four neighbours of a cell, in source order. -/
def neighborsOf (c : GridPos) : List GridPos :=
  walkDirs.map (fun d => (c.1 + d.1, c.2 + d.2))

/-- The unvisited in-grid neighbours of the current cell
(the `candidates` list of `track_gen._try_walk`). -/
def candidatesOf (n : ℕ) (visited : List GridPos) (c : GridPos) : List GridPos :=
  (neighborsOf c).filter (fun p => inGrid n p && !(visited.contains p))

/-- The loop body of `track_gen._try_walk` as a fuel recursion.  `pick t`
is the index drawn by `rng.choice` at the t-th draw (taken modulo the
candidate count); the draw counter is threaded through because the same
`random.Random` instance serves every retry.  Returns the closed path (if
the walk closed) together with the updated draw counter. -/
def walkAux (n : ℕ) (pick : ℕ → ℕ) (minSteps : ℕ) :
    ℕ → ℕ → List GridPos → List GridPos → GridPos → Option (List GridPos) × ℕ
  | 0, t, _, _, _ => (none, t)
  | fuel + 1, t, visited, path, current =>
    if minSteps ≤ path.length ∧ (neighborsOf current).contains ((0, 0) : GridPos) = true then
      (some (path ++ [((0, 0) : GridPos)]), t)
    else
      let cands := candidatesOf n visited current
      if cands.length = 0 then (none, t)
      else
        let c := cands.getD (pick t % cands.length) ((0, 0) : GridPos)
        walkAux n pick minSteps fuel (t + 1) (visited ++ [c]) (path ++ [c]) c

/-- `track_gen._try_walk`: a self-avoiding walk from the fixed origin that
closes once it is at least `max(TRACK_MIN_STEPS, 2n)` long and adjacent to
the origin; at most `n²` steps. -/
def tryWalk (n : ℕ) (pick : ℕ → ℕ) (t : ℕ) : Option (List GridPos) × ℕ :=
  walkAux n pick (max 24 (n * 2)) (n * n) t
    [((0, 0) : GridPos)] [((0, 0) : GridPos)] ((0, 0) : GridPos)

/-- The rectangular oval cell sequence of `track_gen._oval_fallback`
(top edge, right edge, bottom edge, left edge; one-cell border). -/
def ovalPath (n : ℕ) : List GridPos :=
  let lo : ℤ := 1
  let hi : ℤ := (n : ℤ) - 2
  ((List.range (n - 2)).map (fun (k : ℕ) => ((lo + (k : ℤ), lo) : GridPos))) ++
  ((List.range (n - 3)).map (fun (k : ℕ) => ((hi, lo + 1 + (k : ℤ)) : GridPos))) ++
  ((List.range (n - 3)).map (fun (k : ℕ) => ((hi - 1 - (k : ℤ), hi) : GridPos))) ++
  ((List.range (n - 4)).map (fun (k : ℕ) => ((lo, hi - 1 - (k : ℤ)) : GridPos)))

/-- `track_gen._oval_fallback`. -/
def ovalFallback (n : ℕ) : TrackData :=
  let p := ovalPath n
  buildTrackData (p ++ [p.getD 0 ((0, 0) : GridPos)]) n

/-- The retry loop of `track_gen.generate_track`: up to
`TRACK_MAX_RETRIES = 10` walk attempts sharing one RNG stream, then the
oval fallback. -/
def genTrackLoop (n : ℕ) (pick : ℕ → ℕ) : ℕ → ℕ → TrackData
  | 0, _ => ovalFallback n
  | retries + 1, t =>
    match tryWalk n pick t with
    | (some path, _) => buildTrackData path n
    | (none, t2) => genTrackLoop n pick retries t2

/-- `track_gen.generate_track`.  `pick` abstracts the seeded
`random.Random(seed)` stream (the t-th `rng.choice` index); a fixed seed
determines a fixed `pick`, so determinism per seed is by construction. -/
def generate_track (n : ℕ) (pick : ℕ → ℕ) : TrackData :=
  genTrackLoop n pick 10 0

/-! ## Physics constants (config.py) -/

def TILE_FEET : ℚ := 30
def MPH_TO_FPS : ℚ := 5280 / 3600
def TOP_SPEED_FPS : ℚ := 120 * MPH_TO_FPS
def CORNER_SPEED_FPS : ℚ := 60 * MPH_TO_FPS
def CHICANE_SPEED_FPS : ℚ := 45 * MPH_TO_FPS
def FT_PER_SEC_PER_G : ℚ := 32174 / 1000
def ACCEL_FPS2 : ℚ := (1/2) * FT_PER_SEC_PER_G
def BRAKE_FPS2 : ℚ := 1 * FT_PER_SEC_PER_G
def RACE_TICK_DT : ℚ := 62 / 1000
def TRAILING_GRACE_TICKS : ℕ := 160

/-! ## Speed profile (engine.build_speed_profile)

The source takes `math.sqrt` of a float.  The square root is kept abstract
as a parameter `sq : ℚ → ℚ`: every property claimed of the profile holds
for an arbitrary interpretation of `sq` (the constraint sweeps only ever
replace a speed by a strictly smaller value, whatever the limit is), so
the theorems quantify over it and in particular cover the float `sqrt`. -/

/-- The `tile_type_by_pos` dict of `build_speed_profile`: last insertion
wins, missing positions default to straight. -/
def tileTypeByPos (tiles : List TileData) (p : GridPos) : String :=
  tiles.foldl (fun acc t => if (t.x, t.y) = p then t.type else acc) "straight"

/-- Pass 1 of `build_speed_profile`: the raw per-type target speed of the
tile at path index `i`. -/
def rawSpeedAt (track : TrackData) (i : ℕ) : ℚ :=
  let pos := track.path_order.getD i ((0, 0) : GridPos)
  let tt := tileTypeByPos track.tiles pos
  if tt = "chicane" then CHICANE_SPEED_FPS
  else if tt = "curve" then CORNER_SPEED_FPS
  else TOP_SPEED_FPS

/-- The initial raw-target speed list. -/
def rawSpeeds (track : TrackData) : List ℚ :=
  (List.range track.path_order.length).map (rawSpeedAt track)

/-- One in-place constraint update at index `i`: lower `speed[i]` to the
limit when it exceeds the limit by more than the 0.01 tolerance. -/
def passStep (limitOf : List ℚ → ℕ → ℚ) (st : List ℚ × Bool) (i : ℕ) : List ℚ × Bool :=
  let limit := limitOf st.1 i
  if limit + 1/100 < st.1.getD i 0 then (st.1.set i limit, true) else st

/-- The braking limit at index `i` (backward pass, circular successor). -/
def brakeLimit (sq : ℚ → ℚ) (n : ℕ) (sp : List ℚ) (i : ℕ) : ℚ :=
  sq ((sp.getD ((i + 1) % n) 0) ^ 2 + 2 * BRAKE_FPS2 * TILE_FEET)

/-- The acceleration limit at index `i` (forward pass, circular
predecessor). -/
def accelLimit (sq : ℚ → ℚ) (n : ℕ) (sp : List ℚ) (i : ℕ) : ℚ :=
  sq ((sp.getD ((i + n - 1) % n) 0) ^ 2 + 2 * ACCEL_FPS2 * TILE_FEET)

/-- One backward sweep followed by one forward sweep. -/
def onePass (sq : ℚ → ℚ) (n : ℕ) (st : List ℚ × Bool) : List ℚ × Bool :=
  let st1 := (List.range n).foldl (passStep (brakeLimit sq n)) st
  (List.range n).foldl (passStep (accelLimit sq n)) st1

/-- The sweep iteration of `build_speed_profile`: up to 10 backward and
forward pass pairs, stopping early when a pass pair changes nothing. -/
def iterPasses (sq : ℚ → ℚ) (n : ℕ) : ℕ → List ℚ → List ℚ
  | 0, sp => sp
  | k + 1, sp =>
    let st := onePass sq n (sp, false)
    if st.2 then iterPasses sq n k st.1 else st.1

/-- `engine.build_speed_profile`. -/
def build_speed_profile (sq : ℚ → ℚ) (track : TrackData) : List ℚ :=
  iterPasses sq track.path_order.length 10 (rawSpeeds track)

/-! ## Wear (engine.apply_wear) -/

/-- Per-slot wear of `engine.apply_wear`: base wear scaled by the event
multiplier, 50 percent more for stressed slots, floored at 0, readiness
rounded to one decimal, tier preserved. -/
def wearSlot (eventType : String) (s : SlotName) (part : SlotPart) : SlotPart :=
  let wear := baseWearPct * wearMultiplier eventType *
    (if (stressedSlots eventType).contains s then 3/2 else 1)
  { tier := part.tier, readiness := roundTo 1 (max 0 (part.readiness - wear)) }

/-- `engine.apply_wear`. -/
def apply_wear (car : CarSlots) (eventType : String) : CarSlots :=
  { engine := wearSlot eventType .engine car.engine,
    tires := wearSlot eventType .tires car.tires,
    suspension := wearSlot eventType .suspension car.suspension,
    aero := wearSlot eventType .aero car.aero,
    fuel := wearSlot eventType .fuel car.fuel,
    electronics := wearSlot eventType .electronics car.electronics }

/-! ## Tick stream (engine.generate_tick_stream)

The stream is a lazy generator in the source; it is modelled as the finite
list of yielded ticks (fuel-bounded by the `max_ticks` cap of the source
safety cap).  The DNF stop fraction is drawn in the source from
`random.Random(hash(pid))` — `hash` on strings is salted per process, so
this is a per-process function of the player id; it is modelled by the
oracle `dnfStopOf`.  Division by a zero total distance would raise in
Python (only possible for `lap_count = 0`); the theorems assume a positive
total distance. -/

/-- One car entry of a tick snapshot. -/
structure TickCar where
  car_id : String
  username : String
  progress : ℚ
  speed : ℚ
  incident : Option String
deriving DecidableEq, Repr, Inhabited

/-- One yielded tick snapshot. -/
structure Tick where
  tick : ℕ
  lap_count : ℕ
  cars : List TickCar
deriving DecidableEq, Repr, Inhabited

/-- The per-car mutable state of the generator (`car_pos`, `car_vel`,
`car_finished`, `car_factor`, `dnf_stop`, `dnf_fired`), keyed here by
keeping the `EntryResult` of the car alongside. -/
structure CarSim where
  res : EntryResult
  factor : ℚ
  stop : Option ℚ
  pos : ℚ
  vel : ℚ
  finished : Option ℕ
  fired : Bool
deriving DecidableEq, Repr, Inhabited

/-- The whole-stream mutable state. -/
structure TSState where
  cars : List CarSim
  leader : Option ℕ
deriving DecidableEq, Repr, Inhabited

/-- The target speed of a car: the profile entry at the current tile
(circular lap arithmetic via the Python float modulo) scaled by the
personal factor (engine.py lines 360-364). -/
def targetOf (profile : List ℚ) (nTiles : ℕ) (pos factor : ℚ) : ℚ :=
  let lapDist := TILE_FEET * (nTiles : ℚ)
  let feetIntoLap := pos - lapDist * ((Int.floor (pos / lapDist) : ℤ) : ℚ)
  let tileIdx := (Int.floor (feetIntoLap / TILE_FEET)).toNat % nTiles
  profile.getD tileIdx 0 * factor

/-- Move the velocity one tick toward the target under the fixed
acceleration and braking constants (engine.py lines 366-371). -/
def velStep (target v : ℚ) : ℚ :=
  if v < target then min target (v + ACCEL_FPS2 * RACE_TICK_DT)
  else if target < v then max target (v - BRAKE_FPS2 * RACE_TICK_DT)
  else v

/-- The per-car body of the tick loop (engine.py lines 327-390).
Returns the new car state, the emitted snapshot entry, whether the car was
still active (cleared `all_done`), and whether it finished the race at
this tick (the branch that can set `leader_finished_tick`). -/
def stepCarF (profile : List ℚ) (nTiles : ℕ) (total : ℚ) (tick : ℕ) (c : CarSim) :
    CarSim × TickCar × Bool × Bool :=
  match c.finished with
  | some _ =>
    (c, { car_id := c.res.player_id, username := c.res.username,
          progress := roundTo 4 (min 1 (c.pos / total)),
          speed := roundTo 0 (c.vel / MPH_TO_FPS),
          incident := if c.res.dnf then some ("dnf") else none }, false, false)
  | none =>
    if c.res.dnf = true ∧ c.stop.isSome = true ∧ (c.stop.getD 0) * total ≤ c.pos then
      ({ c with vel := 0, finished := some tick, fired := true },
       { car_id := c.res.player_id, username := c.res.username,
         progress := roundTo 4 (c.pos / total),
         speed := 0,
         incident := if c.fired then some ("dnf") else some ("dnf_start") }, false, false)
    else
      let vel := velStep (targetOf profile nTiles c.pos c.factor) c.vel
      let pos := c.pos + vel * RACE_TICK_DT
      let fin : Bool := decide (1 ≤ pos / total)
      let pos2 := if fin then total else pos
      ({ c with vel := vel, pos := pos2, finished := if fin then some tick else none },
       { car_id := c.res.player_id, username := c.res.username,
         progress := roundTo 4 (min 1 (pos2 / total)),
         speed := roundTo 0 (vel / MPH_TO_FPS),
         incident := none }, true, fin = true)

/-- One iteration of the tick loop: step every car, emit the snapshot,
update the leader tick, and decide whether the stream ends after this
yield (`all_done`, or the trailing-grace countdown elapsed). -/
def stepTick (profile : List ℚ) (nTiles : ℕ) (total : ℚ) (lapCount : ℕ) (tick : ℕ)
    (st : TSState) : Tick × TSState × Bool :=
  let stepped := st.cars.map (stepCarF profile nTiles total tick)
  let cars2 := stepped.map (fun q => q.1)
  let emitted := stepped.map (fun q => q.2.1)
  let allDone : Bool := stepped.all (fun q => q.2.2.1 = false)
  let anyFin : Bool := stepped.any (fun q => decide (q.2.2.2 = true))
  let leader2 : Option ℕ :=
    match st.leader with
    | some l => some l
    | none => if anyFin then some tick else none
  let stopB : Bool := allDone ||
    (match leader2 with
     | some l => decide (TRAILING_GRACE_TICKS ≤ tick - l)
     | none => false)
  ({ tick := tick, lap_count := lapCount, cars := emitted },
   { cars := cars2, leader := leader2 }, stopB)

/-- The `while tick_num < max_ticks` loop, yielding each tick together
with the post-tick state (the state is a proof ghost; the stream itself is
the first projection). -/
def runTicksAux (profile : List ℚ) (nTiles : ℕ) (total : ℚ) (lapCount : ℕ) :
    ℕ → ℕ → TSState → List (Tick × TSState)
  | 0, _, _ => []
  | fuel + 1, tick, st =>
    let t2 := tick + 1
    let r := stepTick profile nTiles total lapCount t2 st
    (r.1, r.2.1) :: (if r.2.2 then [] else runTicksAux profile nTiles total lapCount fuel t2 r.2.1)

/-- `max(r.result_score for r in results) or 1.0`. -/
def maxScoreOf (results : List EntryResult) : ℚ :=
  match results.map (fun r => r.result_score) with
  | [] => 1
  | x :: xs =>
    let m := xs.foldl max x
    if m = 0 then 1 else m

/-- The per-car initial state (engine.py lines 307-316). -/
def initCar (dnfStopOf : String → ℚ) (maxScore : ℚ) (r : EntryResult) : CarSim :=
  { res := r, factor := max (3/10) (r.result_score / maxScore),
    stop := if r.dnf then some (dnfStopOf r.player_id) else none,
    pos := 0, vel := 0, finished := none, fired := false }

/-- The speed profile and tile count used by the stream
(`if track and track.path_order:` … else a flat top-speed profile). -/
def profileOf (sq : ℚ → ℚ) (track : Option TrackData) : List ℚ × ℕ :=
  match track with
  | some t =>
    if t.path_order.length ≠ 0 then (build_speed_profile sq t, t.path_order.length)
    else ([TOP_SPEED_FPS], 1)
  | none => ([TOP_SPEED_FPS], 1)

/-- The `max_ticks` safety cap of the source. -/
def MAX_TICKS : ℕ := 200000

/-- The total race distance in feet. -/
def totalDistanceOf (nTiles lapCount : ℕ) : ℚ :=
  TILE_FEET * (nTiles : ℚ) * (lapCount : ℚ)

/-- `engine.generate_tick_stream`, as the list of yielded ticks. -/
def generate_tick_stream (sq : ℚ → ℚ) (dnfStopOf : String → ℚ)
    (results : List EntryResult) (lapCount : ℕ) (track : Option TrackData) : List Tick :=
  if results.isEmpty then []
  else
    let pn := profileOf sq track
    let total := totalDistanceOf pn.2 lapCount
    let m := maxScoreOf results
    let st0 : TSState := { cars := results.map (initCar dnfStopOf m), leader := none }
    (runTicksAux pn.1 pn.2 total lapCount MAX_TICKS 0 st0).map (fun q => q.1)

/-- The invariant maintained by the tick loop for each car state: the
personal factor lies in [0.3, 1], the velocity in [0, top-speed × factor],
the position in [0, total], the stop marker is populated exactly for
DNF entrants with the oracle value for this player, and a finished
non-DNF car (a finisher) rests exactly at the total distance. -/
def CarInv (dnfStopOf : String → ℚ) (total : ℚ) (c : CarSim) : Prop :=
  0 ≤ c.factor ∧ c.factor ≤ 1 ∧
  0 ≤ c.vel ∧ c.vel ≤ TOP_SPEED_FPS * c.factor ∧
  0 ≤ c.pos ∧ c.pos ≤ total ∧
  c.stop = (if c.res.dnf then some (dnfStopOf c.res.player_id) else none) ∧
  (c.finished.isSome = true → c.res.dnf = false → c.pos = total)

/-! ## Concrete instances used by witnesses and counterexamples -/

/-- A fully standard car at full readiness. -/
def stdCar : CarSlots := {}

/-- A fully performance-tier car at full readiness. -/
def perfCar : CarSlots :=
  { engine := { tier := .performance }, tires := { tier := .performance },
    suspension := { tier := .performance }, aero := { tier := .performance },
    fuel := { tier := .performance }, electronics := { tier := .performance } }

/-- A performance car whose engine readiness is 10 (DNF-eligible). -/
def fragilePerfCar : CarSlots :=
  { engine := { tier := .performance, readiness := 10 },
    tires := { tier := .performance }, suspension := { tier := .performance },
    aero := { tier := .performance }, fuel := { tier := .performance },
    electronics := { tier := .performance } }

/-- A seeded-RNG oracle: every DNF roll fails (1 ≥ 0.1) and luck is 0. -/
def rngZeroO : String → String → EntrantRand :=
  fun _ _ => { rolls := fun _ => 1, luck := 0 }

/-- A seeded-RNG oracle under which only player pA rolls a DNF
(roll 0.05 < 0.1); all luck draws are 0. -/
def rngDnfO : String → String → EntrantRand :=
  fun _ pid =>
    if pid = "pA" then { rolls := fun _ => 1/20, luck := 0 }
    else { rolls := fun _ => 1, luck := 0 }

/-- A seeded-RNG oracle whose luck draw is 6 (inside the positive tag
band) and whose DNF rolls never fail. -/
def rngLuck6O : String → String → EntrantRand :=
  fun _ _ => { rolls := fun _ => 1, luck := 6 }

/-- The all-zero process-global tag oracle. -/
def gtagsZero : ℕ → ℕ := fun _ => 0

/-- The all-one process-global tag oracle (a different shared-RNG state). -/
def gtagsOne : ℕ → ℕ := fun _ => 1

/-- Entry pA with the performance car. -/
def entryPerfA : RaceEntry :=
  { player_id := "pA", username := "A", locked_car := some perfCar }

/-- Entry pA with the fragile performance car. -/
def entryFragA : RaceEntry :=
  { player_id := "pA", username := "A", locked_car := some fragilePerfCar }

/-- Entry pB with the standard car. -/
def entryStdB : RaceEntry :=
  { player_id := "pB", username := "B", locked_car := some stdCar }

/-- Entry pA with the standard car. -/
def entryStdA : RaceEntry :=
  { player_id := "pA", username := "A", locked_car := some stdCar }

/-- A two-entrant sprint race: pA with the performance car, pB standard. -/
def raceAB : Race :=
  { id := "r1", event_type := "sprint", entries := [entryPerfA, entryStdB] }

/-- A two-entrant sprint race: pA with the fragile performance car
(DNF under `rngDnfO`), pB standard. -/
def raceC4x : Race :=
  { id := "r1", event_type := "sprint", entries := [entryFragA, entryStdB] }

/-- A single-entrant sprint race. -/
def raceC1x : Race :=
  { id := "r1", event_type := "sprint", entries := [entryStdA] }

/-- The all-zero walk oracle for the track generator. -/
def pickZero : ℕ → ℕ := fun _ => 0

/-- A DNF outcome used to exercise the tick stream. -/
def dnfResX : EntryResult :=
  { player_id := "pD", username := "D", position := 1, result_score := 0,
    build_quality := 40, event_fit := 40, readiness_score := 10, luck_delta := 0,
    counterfactual_position := 1, per_slot := [], luck_tag := luckTagNeutral,
    dnf := true, dnf_slot := some .engine }

/-- A tiny three-tile track used to exercise the speed profile. -/
def trackX : TrackData :=
  { grid_width := 4, grid_height := 4,
    tiles := [ { x := 0, y := 0, type := "curve", orientation := "NE" },
               { x := 1, y := 0, type := "straight", orientation := "horizontal" },
               { x := 1, y := 1, type := "chicane", orientation := "NW" } ],
    path_order := [(0, 0), (1, 0), (1, 1)] }

/-! # Theorems

First a layer of reusable lemmas about the building blocks (rounding,
stable sorting, the result-construction loop), then one theorem per
claim, each preceded by a doc comment naming the claim. -/

/-! ## Rounding lemmas -/

theorem floor_le_roundHalfEven (x : ℚ) : Int.floor x ≤ roundHalfEven x := by
  unfold roundHalfEven
  split_ifs <;> omega

theorem roundHalfEven_le_floor_add_one (x : ℚ) : roundHalfEven x ≤ Int.floor x + 1 := by
  unfold roundHalfEven
  split_ifs <;> omega

theorem roundHalfEven_le (x : ℚ) : (roundHalfEven x : ℚ) ≤ x + 1/2 := by
  have hfl := Int.floor_le x
  unfold roundHalfEven
  split_ifs with h1 h2 h3 <;> push_cast <;> linarith

theorem le_roundHalfEven (x : ℚ) : x - 1/2 ≤ (roundHalfEven x : ℚ) := by
  have hfl := Int.lt_floor_add_one x
  unfold roundHalfEven
  split_ifs with h1 h2 h3 <;> push_cast <;> linarith

theorem roundHalfEven_mono {x y : ℚ} (h : x ≤ y) : roundHalfEven x ≤ roundHalfEven y := by
  rcases lt_or_eq_of_le (Int.floor_le_floor h) with hf | hf
  · calc roundHalfEven x ≤ Int.floor x + 1 := roundHalfEven_le_floor_add_one x
      _ ≤ Int.floor y := by omega
      _ ≤ roundHalfEven y := floor_le_roundHalfEven y
  · unfold roundHalfEven
    rw [← hf]
    split_ifs <;> first | omega | (exfalso; linarith)

theorem roundHalfEven_intCast (n : ℤ) : roundHalfEven (n : ℚ) = n := by
  unfold roundHalfEven
  rw [Int.floor_intCast]
  norm_num

theorem roundHalfEven_zero : roundHalfEven 0 = 0 := by
  simpa using roundHalfEven_intCast 0

theorem roundTo_mono (k : ℕ) {x y : ℚ} (h : x ≤ y) : roundTo k x ≤ roundTo k y := by
  unfold roundTo
  have hp : (0:ℚ) < (10:ℚ)^k := by positivity
  have h2 : roundHalfEven (x * (10:ℚ)^k) ≤ roundHalfEven (y * (10:ℚ)^k) :=
    roundHalfEven_mono (by nlinarith)
  gcongr


theorem roundTo_zero (k : ℕ) : roundTo k 0 = 0 := by
  unfold roundTo
  simp [roundHalfEven_zero]

theorem roundTo_nonneg (k : ℕ) {x : ℚ} (h : 0 ≤ x) : 0 ≤ roundTo k x := by
  have := roundTo_mono k h
  rwa [roundTo_zero] at this

theorem roundTo_nonpos (k : ℕ) {x : ℚ} (h : x ≤ 0) : roundTo k x ≤ 0 := by
  have := roundTo_mono k h
  rwa [roundTo_zero] at this

theorem roundTo_le_add (k : ℕ) (x : ℚ) : roundTo k x ≤ x + 1 / (2 * (10:ℚ)^k) := by
  unfold roundTo
  have hp : (0:ℚ) < (10:ℚ)^k := by positivity
  have h := roundHalfEven_le (x * (10:ℚ)^k)
  rw [div_le_iff₀ hp]
  have he : (x + 1 / (2 * (10:ℚ)^k)) * (10:ℚ)^k = x * (10:ℚ)^k + 1/2 := by
    field_simp
    ring
  rw [he]
  exact h

theorem roundTo_one (k : ℕ) : roundTo k 1 = 1 := by
  unfold roundTo
  have hp : (0:ℚ) < (10:ℚ)^k := by positivity
  have h10 : ((10:ℚ)^k) = ((10^k : ℤ) : ℚ) := by push_cast; ring
  rw [one_mul, h10, roundHalfEven_intCast]
  rw [← h10]
  field_simp

theorem roundTo_intCast_q (k : ℕ) (n : ℤ) : roundTo k ((n : ℤ) : ℚ) = (n : ℚ) := by
  unfold roundTo
  have h10 : ((n : ℚ)) * (10:ℚ)^k = (((n * 10^k : ℤ)) : ℚ) := by push_cast; ring
  rw [h10, roundHalfEven_intCast]
  have hp : ((10:ℚ)^k) ≠ 0 := by positivity
  push_cast
  field_simp

/-! ## Stable descending sort lemmas -/

theorem insertDesc_perm {α : Type} (key : α → ℚ) (a : α) (l : List α) :
    List.Perm (insertDesc key a l) (a :: l) := by
  induction l with
  | nil => simp [insertDesc]
  | cons b l ih =>
    by_cases h : key b ≤ key a
    · simp [insertDesc, h]
    · simp only [insertDesc, if_neg h]
      exact (ih.cons b).trans (List.Perm.swap a b l)

theorem sortDesc_perm {α : Type} (key : α → ℚ) (l : List α) :
    List.Perm (sortDesc key l) l := by
  induction l with
  | nil => simp [sortDesc]
  | cons a l ih => exact (insertDesc_perm key a (sortDesc key l)).trans (ih.cons a)

theorem insertDesc_pairwise {α : Type} (key : α → ℚ) (a : α) {l : List α}
    (h : l.Pairwise (fun p q => key q ≤ key p)) :
    (insertDesc key a l).Pairwise (fun p q => key q ≤ key p) := by
  induction l with
  | nil => simp [insertDesc]
  | cons b l ih =>
    rcases List.pairwise_cons.mp h with ⟨hb, hl⟩
    by_cases hba : key b ≤ key a
    · simp only [insertDesc, if_pos hba]
      refine List.pairwise_cons.mpr ⟨?_, h⟩
      intro c hc
      rcases List.mem_cons.mp hc with hc | hc
      · subst hc; exact hba
      · exact (hb c hc).trans hba
    · simp only [insertDesc, if_neg hba]
      refine List.pairwise_cons.mpr ⟨?_, ih hl⟩
      intro c hc
      rcases List.mem_cons.mp ((insertDesc_perm key a l).mem_iff.mp hc) with hc | hc
      · subst hc; exact le_of_lt (lt_of_not_le hba)
      · exact hb c hc

theorem sortDesc_pairwise {α : Type} (key : α → ℚ) (l : List α) :
    (sortDesc key l).Pairwise (fun p q => key q ≤ key p) := by
  induction l with
  | nil => simp [sortDesc]
  | cons a l ih => exact insertDesc_pairwise key a ih

theorem sortDesc_of_pairwise {α : Type} (key : α → ℚ) {l : List α}
    (h : l.Pairwise (fun p q => key q ≤ key p)) : sortDesc key l = l := by
  induction l with
  | nil => rfl
  | cons a l ih =>
    rcases List.pairwise_cons.mp h with ⟨ha, hl⟩
    have : sortDesc key (a :: l) = insertDesc key a l := by
      simp [sortDesc, ih hl]
    rw [this]
    cases l with
    | nil => rfl
    | cons b l2 =>
      have : key b ≤ key a := ha b (by simp)
      simp [insertDesc, this]

/-! ## Result-construction lemmas -/

theorem buildResults_length (g : ℕ → ℕ) (cf : String → ℕ) (l : List RawResult)
    (pos gc : ℕ) : (buildResults g cf l pos gc).length = l.length := by
  induction l generalizing pos gc with
  | nil => rfl
  | cons r rest ih => simp [buildResults, ih]

theorem buildResults_getD (g : ℕ → ℕ) (cf : String → ℕ) :
    ∀ (l : List RawResult) (pos gc i : ℕ), i < l.length →
      ∃ tag, (buildResults g cf l pos gc).getD i default =
        mkEntryResult cf (pos + i) tag (l.getD i default) := by
  intro l
  induction l with
  | nil => intro pos gc i h; simp at h
  | cons r rest ih =>
    intro pos gc i h
    cases i with
    | zero => exact ⟨luckTag r.luck_delta (g gc), by simp [buildResults]⟩
    | succ i =>
      have h2 : i < rest.length := by simpa using h
      obtain ⟨tag, htag⟩ :=
        ih (pos + 1) (gc + if luckTagConsumes r.luck_delta then 1 else 0) i h2
      refine ⟨tag, ?_⟩
      simp only [buildResults, List.getD_cons_succ]
      rw [htag]
      congr 1
      omega

theorem buildResults_map_pid (g : ℕ → ℕ) (cf : String → ℕ) (l : List RawResult)
    (pos gc : ℕ) :
    (buildResults g cf l pos gc).map (fun r => r.player_id) =
      l.map (fun r => r.player_id) := by
  induction l generalizing pos gc with
  | nil => rfl
  | cons r rest ih => simp [buildResults, mkEntryResult, ih]

theorem buildResults_map_position (g : ℕ → ℕ) (cf : String → ℕ) (l : List RawResult)
    (pos gc : ℕ) :
    (buildResults g cf l pos gc).map (fun r => r.position) =
      List.range' pos l.length := by
  induction l generalizing pos gc with
  | nil => rfl
  | cons r rest ih => simp [buildResults, mkEntryResult, ih, List.range'_succ]

/-! ## Simulator structure lemmas -/

theorem rawOf_score_eq (raceId et : String) (rngOf : String → String → EntrantRand)
    (e : RaceEntry) (car : CarSlots) :
    (rawOf raceId et rngOf e car).score =
      if (checkDnf car (rngOf raceId e.player_id).rolls).isSome then 0
      else clampScore (buildQuality car * bqWeightOf et +
        (eventFit car et).1 * (35/100) +
        (readinessScore car (eventFit car et).2).1 * (25/100) +
        (rngOf raceId e.player_id).luck) := by
  simp [rawOf, bqWeightOf]

theorem mem_rawList (rngOf : String → String → EntrantRand) (race : Race)
    (rr : RawResult) :
    rr ∈ rawList rngOf race ↔
      ∃ e ∈ race.entries, ∃ car, e.locked_car = some car ∧
        rr = rawOf race.id race.event_type rngOf e car := by
  unfold rawList
  rw [List.mem_filterMap]
  constructor
  · rintro ⟨e, he, hmap⟩
    obtain ⟨car, hcar, heq⟩ := Option.map_eq_some'.mp hmap
    exact ⟨e, he, car, hcar, heq.symm⟩
  · rintro ⟨e, he, car, hcar, heq⟩
    exact ⟨e, he, by rw [hcar, Option.map_some', heq]⟩

theorem filterMap_pid_aux (raceId et : String) (rngOf : String → String → EntrantRand) :
    ∀ l : List RaceEntry,
      ((l.filterMap (fun e => e.locked_car.map (fun car => rawOf raceId et rngOf e car))).map
        (fun r => r.player_id)) =
      ((l.filter (fun e => e.locked_car.isSome)).map (fun e => e.player_id)) := by
  intro l
  induction l with
  | nil => rfl
  | cons e l ih =>
    cases hc : e.locked_car with
    | none => simpa [List.filterMap_cons, List.filter_cons, hc] using ih
    | some car => simpa [List.filterMap_cons, List.filter_cons, hc, rawOf] using ih

theorem rawList_map_pid (rngOf : String → String → EntrantRand) (race : Race) :
    (rawList rngOf race).map (fun r => r.player_id) =
      (race.entries.filter (fun e => e.locked_car.isSome)).map (fun e => e.player_id) :=
  filterMap_pid_aux race.id race.event_type rngOf race.entries

theorem sortedRaw_perm (rngOf : String → String → EntrantRand) (race : Race) :
    List.Perm (sortedRaw rngOf race) (rawList rngOf race) :=
  sortDesc_perm _ _

theorem sortedRaw_pairwise (rngOf : String → String → EntrantRand) (race : Race) :
    (sortedRaw rngOf race).Pairwise (fun a b => b.score ≤ a.score) :=
  sortDesc_pairwise _ _

theorem simulate_race_length (rngOf : String → String → EntrantRand) (gtags : ℕ → ℕ)
    (race : Race) :
    (simulate_race rngOf gtags race).length = (sortedRaw rngOf race).length :=
  buildResults_length _ _ _ _ _

theorem rawList_dnf_score (rngOf : String → String → EntrantRand) (race : Race)
    {rr : RawResult} (h : rr ∈ rawList rngOf race) (hd : rr.dnf = true) :
    rr.score = 0 := by
  obtain ⟨e, _, car, _, heq⟩ := (mem_rawList rngOf race rr).mp h
  subst heq
  have : (rawOf race.id race.event_type rngOf e car).dnf
      = (checkDnf car (rngOf race.id e.player_id).rolls).isSome := rfl
  rw [rawOf_score_eq, if_pos (by rw [← this, hd])]

/-- Claim C5: every simulated entrant with a locked snapshot scores 0 if
DNF, and otherwise scores
`build_quality*w + event_fit*0.35 + readiness_score*0.25 + luck_delta`
clamped to the interval from 0 to 100, with w = 0.50 for time-trial
events and 0.40 for all other event types (the exposed `result_score` is
that value rounded to two decimals). -/
theorem simulate_race_score_formula (rngOf : String → String → EntrantRand)
    (gtags : ℕ → ℕ) (race : Race) :
    ∀ r ∈ simulate_race rngOf gtags race,
      ∃ e ∈ race.entries, ∃ car, e.locked_car = some car ∧
        r.player_id = e.player_id ∧
        r.dnf = (checkDnf car (rngOf race.id e.player_id).rolls).isSome ∧
        r.result_score = roundTo 2 (
          if (checkDnf car (rngOf race.id e.player_id).rolls).isSome then 0
          else clampScore (buildQuality car * bqWeightOf race.event_type +
            (eventFit car race.event_type).1 * (35/100) +
            (readinessScore car (eventFit car race.event_type).2).1 * (25/100) +
            (rngOf race.id e.player_id).luck)) := by
  intro r hr
  obtain ⟨i, hi, hieq⟩ := List.getElem_of_mem hr
  have hlen : i < (sortedRaw rngOf race).length := by
    rw [← simulate_race_length rngOf gtags race]; exact hi
  obtain ⟨tag, htag⟩ :=
    buildResults_getD gtags (cfRankOf rngOf race) (sortedRaw rngOf race) 1 0 i hlen
  have hr2 : r = mkEntryResult (cfRankOf rngOf race) (1 + i) tag
      ((sortedRaw rngOf race).getD i default) := by
    rw [← htag]
    rw [← hieq]
    exact (List.getD_eq_getElem _ _ hi).symm
  have hmemS : (sortedRaw rngOf race).getD i default ∈ sortedRaw rngOf race := by
    rw [List.getD_eq_getElem _ _ hlen]; exact List.getElem_mem hlen
  obtain ⟨e, he, car, hcar, heq⟩ :=
    (mem_rawList rngOf race _).mp ((sortedRaw_perm rngOf race).mem_iff.mp hmemS)
  refine ⟨e, he, car, hcar, ?_, ?_, ?_⟩
  · rw [hr2, heq]; rfl
  · rw [hr2, heq]; rfl
  · rw [hr2, heq]
    show roundTo 2 (rawOf race.id race.event_type rngOf e car).score = _
    rw [rawOf_score_eq]

theorem rawListAB_length : (rawList rngZeroO raceAB).length = 2 := by
  simp [rawList, raceAB, entryPerfA, entryStdB, List.filterMap]

theorem simAB_length : (simulate_race rngZeroO gtagsZero raceAB).length = 2 := by
  rw [simulate_race_length, (sortedRaw_perm rngZeroO raceAB).length_eq, rawListAB_length]

/-- Claim C5 witness: the formula instantiated at a concrete race. -/
theorem simulate_race_score_formula_witness :
    ((simulate_race rngZeroO gtagsZero raceAB).getD 0 default ∈
      simulate_race rngZeroO gtagsZero raceAB) ∧
    ∃ e ∈ raceAB.entries, ∃ car, e.locked_car = some car ∧
      ((simulate_race rngZeroO gtagsZero raceAB).getD 0 default).player_id = e.player_id ∧
      ((simulate_race rngZeroO gtagsZero raceAB).getD 0 default).dnf
        = (checkDnf car (rngZeroO raceAB.id e.player_id).rolls).isSome ∧
      ((simulate_race rngZeroO gtagsZero raceAB).getD 0 default).result_score = roundTo 2 (
        if (checkDnf car (rngZeroO raceAB.id e.player_id).rolls).isSome then 0
        else clampScore (buildQuality car * bqWeightOf raceAB.event_type +
          (eventFit car raceAB.event_type).1 * (35/100) +
          (readinessScore car (eventFit car raceAB.event_type).2).1 * (25/100) +
          (rngZeroO raceAB.id e.player_id).luck)) := by
  have hlen : 0 < (simulate_race rngZeroO gtagsZero raceAB).length := by
    rw [simAB_length]; norm_num
  have hmem : (simulate_race rngZeroO gtagsZero raceAB).getD 0 default ∈
      simulate_race rngZeroO gtagsZero raceAB := by
    rw [List.getD_eq_getElem _ _ hlen]; exact List.getElem_mem hlen
  exact ⟨hmem, simulate_race_score_formula rngZeroO gtagsZero raceAB _ hmem⟩

/-- Claim C3: one result per locked entry (unlocked entries silently
skipped), positions exactly 1..k, and every DNF entrant positioned after
every entrant with a strictly positive score. -/
theorem simulate_race_positions (rngOf : String → String → EntrantRand)
    (gtags : ℕ → ℕ) (race : Race) :
    List.Perm ((simulate_race rngOf gtags race).map (fun r => r.player_id))
      ((race.entries.filter (fun e => e.locked_car.isSome)).map (fun e => e.player_id)) ∧
    (simulate_race rngOf gtags race).map (fun r => r.position) =
      List.range' 1 (simulate_race rngOf gtags race).length ∧
    ∀ i j, i < (simulate_race rngOf gtags race).length →
      j < (simulate_race rngOf gtags race).length →
      ((simulate_race rngOf gtags race).getD i default).dnf = true →
      0 < ((simulate_race rngOf gtags race).getD j default).result_score →
      ((simulate_race rngOf gtags race).getD j default).position <
        ((simulate_race rngOf gtags race).getD i default).position := by
  refine ⟨?_, ?_, ?_⟩
  · have h1 : (simulate_race rngOf gtags race).map (fun r => r.player_id)
        = (sortedRaw rngOf race).map (fun r => r.player_id) :=
      buildResults_map_pid gtags (cfRankOf rngOf race) (sortedRaw rngOf race) 1 0
    rw [h1, ← rawList_map_pid rngOf race]
    exact (sortedRaw_perm rngOf race).map _
  · have h2 : (simulate_race rngOf gtags race).map (fun r => r.position)
        = List.range' 1 (sortedRaw rngOf race).length :=
      buildResults_map_position gtags (cfRankOf rngOf race) (sortedRaw rngOf race) 1 0
    rw [h2, simulate_race_length]
  · intro i j hi hj hdnf hpos
    have hli : i < (sortedRaw rngOf race).length := by
      rw [← simulate_race_length rngOf gtags race]; exact hi
    have hlj : j < (sortedRaw rngOf race).length := by
      rw [← simulate_race_length rngOf gtags race]; exact hj
    obtain ⟨ti, hti⟩ :=
      buildResults_getD gtags (cfRankOf rngOf race) (sortedRaw rngOf race) 1 0 i hli
    obtain ⟨tj, htj⟩ :=
      buildResults_getD gtags (cfRankOf rngOf race) (sortedRaw rngOf race) 1 0 j hlj
    have hgi : (simulate_race rngOf gtags race).getD i default =
        mkEntryResult (cfRankOf rngOf race) (1 + i) ti
          ((sortedRaw rngOf race).getD i default) := hti
    have hgj : (simulate_race rngOf gtags race).getD j default =
        mkEntryResult (cfRankOf rngOf race) (1 + j) tj
          ((sortedRaw rngOf race).getD j default) := htj
    rw [hgi] at hdnf
    rw [hgj] at hpos
    rw [hgi, hgj]
    show 1 + j < 1 + i
    have hdnfi : ((sortedRaw rngOf race).getD i default).dnf = true := hdnf
    have hscorej : 0 < roundTo 2 ((sortedRaw rngOf race).getD j default).score := hpos
    have hsj : 0 < ((sortedRaw rngOf race).getD j default).score := by
      by_contra hle
      exact absurd hscorej (not_lt.mpr (roundTo_nonpos 2 (not_lt.mp hle)))
    have hmemi : (sortedRaw rngOf race).getD i default ∈ rawList rngOf race := by
      refine (sortedRaw_perm rngOf race).mem_iff.mp ?_
      rw [List.getD_eq_getElem _ _ hli]; exact List.getElem_mem hli
    have hsi : ((sortedRaw rngOf race).getD i default).score = 0 :=
      rawList_dnf_score rngOf race hmemi hdnfi
    have hij : j < i := by
      by_contra hge
      rcases Nat.lt_or_ge i j with hlt | hge2
      · have hpw := (List.pairwise_iff_getElem.mp (sortedRaw_pairwise rngOf race)) i j hli hlj hlt
        rw [← List.getD_eq_getElem _ default hli, ← List.getD_eq_getElem _ default hlj] at hpw
        rw [hsi] at hpw
        exact absurd hsj (not_lt.mpr hpw)
      · have : i = j := by omega
        subst this
        rw [hsi] at hsj
        exact lt_irrefl 0 hsj
    omega

/-! Staged evaluation of the concrete race `raceC4x` (kernel reduction of
rational arithmetic is unavailable, so concrete runs are evaluated through
`simp`/`norm_num` step by step). -/

theorem rawOf_dnf_proj (raceId et : String) (rngOf : String → String → EntrantRand)
    (e : RaceEntry) (car : CarSlots) :
    (rawOf raceId et rngOf e car).dnf
      = (checkDnf car (rngOf raceId e.player_id).rolls).isSome := rfl

theorem rawOf_pid_proj (raceId et : String) (rngOf : String → String → EntrantRand)
    (e : RaceEntry) (car : CarSlots) :
    (rawOf raceId et rngOf e car).player_id = e.player_id := rfl

theorem rawOf_luck_proj (raceId et : String) (rngOf : String → String → EntrantRand)
    (e : RaceEntry) (car : CarSlots) :
    (rawOf raceId et rngOf e car).luck_delta = (rngOf raceId e.player_id).luck := rfl

theorem rawOf_bq_proj (raceId et : String) (rngOf : String → String → EntrantRand)
    (e : RaceEntry) (car : CarSlots) :
    (rawOf raceId et rngOf e car).build_quality = buildQuality car := rfl

theorem rawOf_ef_proj (raceId et : String) (rngOf : String → String → EntrantRand)
    (e : RaceEntry) (car : CarSlots) :
    (rawOf raceId et rngOf e car).event_fit = (eventFit car et).1 := rfl

theorem rawOf_rs_proj (raceId et : String) (rngOf : String → String → EntrantRand)
    (e : RaceEntry) (car : CarSlots) :
    (rawOf raceId et rngOf e car).readiness_score
      = (readinessScore car (eventFit car et).2).1 := rfl

theorem checkDnf_fragA : checkDnf fragilePerfCar (rngDnfO raceC4x.id entryFragA.player_id).rolls
    = some .engine := by
  simp [checkDnf, checkDnfAux, slotNames, CarSlots.getSlot, fragilePerfCar,
    rngDnfO, entryFragA, raceC4x]
  norm_num

theorem checkDnf_stdB : checkDnf stdCar (rngDnfO raceC4x.id entryStdB.player_id).rolls
    = none := by
  simp [checkDnf, checkDnfAux, slotNames, CarSlots.getSlot, stdCar,
    rngDnfO, entryStdB, raceC4x]
  norm_num

theorem rawListC4x_eval : rawList rngDnfO raceC4x =
    [rawOf raceC4x.id raceC4x.event_type rngDnfO entryFragA fragilePerfCar,
     rawOf raceC4x.id raceC4x.event_type rngDnfO entryStdB stdCar] := by
  simp [rawList, raceC4x, entryFragA, entryStdB, List.filterMap]

theorem scoreFragA_eval :
    (rawOf raceC4x.id raceC4x.event_type rngDnfO entryFragA fragilePerfCar).score = 0 := by
  rw [rawOf_score_eq, checkDnf_fragA]
  norm_num

theorem buildQuality_stdCar : buildQuality stdCar = 40 := by
  simp [buildQuality, slotNames, CarSlots.getSlot, stdCar, tierScore]
  norm_num

theorem eventFit_stdCar_sprint : (eventFit stdCar raceC4x.event_type).1 = 40 := by
  simp [eventFit, slotNames, CarSlots.getSlot, stdCar, tierScore,
    eventSlotWeights, raceC4x, strWetTrack, strNightRace, strEndurance, strWeightLimit,
    max_def, min_def]
  norm_num

theorem readinessScore_stdCar :
    (readinessScore stdCar (eventFit stdCar raceC4x.event_type).2).1 = 100 := by
  simp [readinessScore, readinessStep, slotNames, CarSlots.getSlot, stdCar, List.foldl,
    max_def, min_def]
  norm_num

theorem scoreStdB_eval :
    (rawOf raceC4x.id raceC4x.event_type rngDnfO entryStdB stdCar).score = 55 := by
  rw [rawOf_score_eq, checkDnf_stdB]
  rw [buildQuality_stdCar, eventFit_stdCar_sprint, readinessScore_stdCar]
  simp [clampScore, bqWeightOf, rngDnfO, entryStdB, raceC4x, strTimeTrial,
    max_def, min_def]
  norm_num

theorem sortedRawC4x_eval : sortedRaw rngDnfO raceC4x =
    [rawOf raceC4x.id raceC4x.event_type rngDnfO entryStdB stdCar,
     rawOf raceC4x.id raceC4x.event_type rngDnfO entryFragA fragilePerfCar] := by
  rw [sortedRaw, rawListC4x_eval]
  norm_num [sortDesc, insertDesc, scoreFragA_eval, scoreStdB_eval]

theorem simC4x_getD1_dnf :
    ((simulate_race rngDnfO gtagsZero raceC4x).getD 1 default).dnf = true := by
  have h : simulate_race rngDnfO gtagsZero raceC4x
      = buildResults gtagsZero (cfRankOf rngDnfO raceC4x) (sortedRaw rngDnfO raceC4x) 1 0 := rfl
  rw [h, sortedRawC4x_eval]
  simp [buildResults, mkEntryResult, rawOf_dnf_proj, checkDnf_fragA]

theorem simC4x_getD0_score :
    ((simulate_race rngDnfO gtagsZero raceC4x).getD 0 default).result_score = 55 := by
  have h : simulate_race rngDnfO gtagsZero raceC4x
      = buildResults gtagsZero (cfRankOf rngDnfO raceC4x) (sortedRaw rngDnfO raceC4x) 1 0 := rfl
  rw [h, sortedRawC4x_eval]
  simp only [buildResults, mkEntryResult, List.getD_cons_zero]
  rw [scoreStdB_eval]
  have h55 : ((55 : ℤ) : ℚ) = 55 := by norm_num
  rw [← h55, roundTo_intCast_q]

theorem simC4x_length : (simulate_race rngDnfO gtagsZero raceC4x).length = 2 := by
  rw [simulate_race_length, sortedRawC4x_eval]
  rfl

/-- Claim C3 witness: in the concrete race `raceC4x`, pA is DNF and is
positioned after pB, whose score is positive. -/
theorem simulate_race_positions_witness :
    ((simulate_race rngDnfO gtagsZero raceC4x).getD 1 default).dnf = true ∧
    (0 < ((simulate_race rngDnfO gtagsZero raceC4x).getD 0 default).result_score) ∧
    ((simulate_race rngDnfO gtagsZero raceC4x).getD 0 default).position <
      ((simulate_race rngDnfO gtagsZero raceC4x).getD 1 default).position := by
  have hs : (0:ℚ) < ((simulate_race rngDnfO gtagsZero raceC4x).getD 0 default).result_score := by
    rw [simC4x_getD0_score]; norm_num
  refine ⟨simC4x_getD1_dnf, hs, ?_⟩
  exact (simulate_race_positions rngDnfO gtagsZero raceC4x).2.2 1 0
    (by rw [simC4x_length]; norm_num) (by rw [simC4x_length]; norm_num)
    simC4x_getD1_dnf hs

/-! ## Counterfactual rank lemmas (claim C4) -/

theorem dictRankAux_not_mem (pid : String) :
    ∀ (pairs : List (String × ℚ)) (i acc : ℕ),
      pid ∉ pairs.map (fun p => p.1) → dictRankAux pid pairs i acc = acc := by
  intro pairs
  induction pairs with
  | nil => intro i acc _; rfl
  | cons p rest ih =>
    intro i acc h
    simp only [List.map_cons, List.mem_cons, not_or] at h
    have hne : ¬(p.1 = pid) := fun hp => h.1 hp.symm
    show dictRankAux pid rest (i + 1) (if p.1 = pid then i + 1 else acc) = acc
    rw [if_neg hne]
    exact ih (i + 1) acc h.2

theorem dictRankAux_spec :
    ∀ (pairs : List (String × ℚ)), (pairs.map (fun p => p.1)).Nodup →
      ∀ i, i < pairs.length → ∀ start acc,
        dictRankAux ((pairs.getD i default).1) pairs start acc = start + i + 1 := by
  intro pairs
  induction pairs with
  | nil => intro _ i hi; simp at hi
  | cons p rest ih =>
    intro hnd i hi start acc
    have hnd2 := List.nodup_cons.mp
      (show (p.1 :: rest.map (fun q => q.1)).Nodup from hnd)
    cases i with
    | zero =>
      simp only [List.getD_cons_zero]
      show dictRankAux p.1 rest (start + 1) (if p.1 = p.1 then start + 1 else acc)
        = start + 0 + 1
      rw [if_pos rfl, dictRankAux_not_mem _ _ _ _ hnd2.1]
    | succ i =>
      have hi2 : i < rest.length := by simpa using hi
      have hmem : (rest.getD i default).1 ∈ rest.map (fun p => p.1) := by
        rw [List.getD_eq_getElem _ _ hi2]
        exact List.mem_map_of_mem _ (List.getElem_mem hi2)
      have hne : ¬(p.1 = (rest.getD i default).1) := by
        intro hp; rw [hp] at hnd2; exact hnd2.1 hmem
      simp only [List.getD_cons_succ]
      show dictRankAux (rest.getD i default).1 rest (start + 1)
        (if p.1 = (rest.getD i default).1 then start + 1 else acc) = start + (i + 1) + 1
      rw [if_neg hne]
      rw [ih hnd2.2 i hi2 (start + 1) acc]
      omega

theorem dictRank_spec (pairs : List (String × ℚ))
    (hnd : (pairs.map (fun p => p.1)).Nodup) {i : ℕ} (hi : i < pairs.length) :
    dictRank pairs ((pairs.getD i default).1) = i + 1 := by
  simpa using dictRankAux_spec pairs hnd i hi 0 0

theorem rawOf_score_struct (raceId et : String) (rngOf : String → String → EntrantRand)
    (e : RaceEntry) (car : CarSlots) :
    (rawOf raceId et rngOf e car).score =
      if (rawOf raceId et rngOf e car).dnf then 0
      else clampScore (neutralScore (bqWeightOf et) (rawOf raceId et rngOf e car) +
        (rawOf raceId et rngOf e car).luck_delta) := by
  simp [rawOf, neutralScore, bqWeightOf]

/-- Claim C4 (amended): the counterfactual position is the rank by the
luck-zeroed neutral score `bq*w + ef*0.35 + rs*0.25` — computed without
re-applying the DNF zeroing or the clamp — so when no entrant is DNF, no
score is clamped, player ids are distinct, and every luck delta is zero,
the counterfactual position of each entrant equals its actual position. -/
theorem counterfactual_eq_position_of_no_luck (rngOf : String → String → EntrantRand)
    (gtags : ℕ → ℕ) (race : Race)
    (hnodup : ((rawList rngOf race).map (fun r => r.player_id)).Nodup)
    (hall : ∀ rr ∈ rawList rngOf race, rr.luck_delta = 0 ∧ rr.dnf = false ∧
      0 ≤ neutralScore (bqWeightOf race.event_type) rr ∧
      neutralScore (bqWeightOf race.event_type) rr ≤ 100) :
    ∀ r ∈ simulate_race rngOf gtags race, r.counterfactual_position = r.position := by
  have hscore : ∀ rr ∈ rawList rngOf race,
      rr.score = neutralScore (bqWeightOf race.event_type) rr := by
    intro rr h
    obtain ⟨hl, hd, h0, h100⟩ := hall rr h
    obtain ⟨e, _, car, _, heq⟩ := (mem_rawList rngOf race rr).mp h
    subst heq
    rw [rawOf_score_struct, if_neg (by rw [hd]; exact Bool.false_ne_true), hl, add_zero,
      clampScore, min_eq_right h100, max_eq_right h0]
  have hpw : (sortedRaw rngOf race).Pairwise
      (fun a b => neutralScore (bqWeightOf race.event_type) b ≤
        neutralScore (bqWeightOf race.event_type) a) := by
    refine (sortedRaw_pairwise rngOf race).imp_of_mem ?_
    intro a b ha hb hab
    rw [← hscore a ((sortedRaw_perm rngOf race).mem_iff.mp ha),
      ← hscore b ((sortedRaw_perm rngOf race).mem_iff.mp hb)]
    exact hab
  have hpairs : (neutralPairs rngOf race).Pairwise (fun p q => q.2 ≤ p.2) := by
    rw [neutralPairs, List.pairwise_map]
    exact hpw
  have hsorted_eq : sortDesc (fun p => p.2) (neutralPairs rngOf race)
      = neutralPairs rngOf race := sortDesc_of_pairwise _ hpairs
  have hnp_pid : (neutralPairs rngOf race).map (fun p => p.1)
      = (sortedRaw rngOf race).map (fun r => r.player_id) := by
    rw [neutralPairs, List.map_map]
    rfl
  have hnd2 : ((neutralPairs rngOf race).map (fun p => p.1)).Nodup := by
    rw [hnp_pid]
    exact ((sortedRaw_perm rngOf race).map (fun r => r.player_id)).nodup_iff.mpr hnodup
  intro r hr
  obtain ⟨i, hi, hieq⟩ := List.getElem_of_mem hr
  have hlen : i < (sortedRaw rngOf race).length := by
    rw [← simulate_race_length rngOf gtags race]; exact hi
  have hlenN : i < (neutralPairs rngOf race).length := by
    rw [neutralPairs, List.length_map]; exact hlen
  obtain ⟨tag, htag⟩ :=
    buildResults_getD gtags (cfRankOf rngOf race) (sortedRaw rngOf race) 1 0 i hlen
  have hr2 : r = mkEntryResult (cfRankOf rngOf race) (1 + i) tag
      ((sortedRaw rngOf race).getD i default) := by
    rw [← htag, ← hieq]
    exact (List.getD_eq_getElem _ _ hi).symm
  have hmapN : neutralPairs rngOf race = (sortedRaw rngOf race).map
      (fun r => (r.player_id, neutralScore (bqWeightOf race.event_type) r)) := rfl
  have hpid : ((neutralPairs rngOf race).getD i default).1
      = ((sortedRaw rngOf race).getD i default).player_id := by
    rw [hmapN, List.getD_eq_getElem _ _ (by simpa using hlen),
      List.getD_eq_getElem _ _ hlen, List.getElem_map]
  have hcf : cfRankOf rngOf race ((sortedRaw rngOf race).getD i default).player_id = i + 1 := by
    rw [cfRankOf, hsorted_eq, ← hpid]
    exact dictRank_spec (neutralPairs rngOf race) hnd2 hlenN
  rw [hr2]
  show cfRankOf rngOf race ((sortedRaw rngOf race).getD i default).player_id = 1 + i
  rw [hcf]
  omega

/-! Staged evaluation of the counterfactual ranks of `raceC4x`. -/

theorem buildQuality_fragA : buildQuality fragilePerfCar = 100 := by
  simp [buildQuality, slotNames, CarSlots.getSlot, fragilePerfCar, tierScore]
  norm_num

theorem eventFit_fragA_sprint : (eventFit fragilePerfCar raceC4x.event_type).1 = 100 := by
  simp [eventFit, slotNames, CarSlots.getSlot, fragilePerfCar, tierScore,
    eventSlotWeights, raceC4x, strWetTrack, strNightRace, strEndurance, strWeightLimit,
    max_def, min_def]
  norm_num

theorem readinessScore_fragA :
    (readinessScore fragilePerfCar (eventFit fragilePerfCar raceC4x.event_type).2).1
      = 250/3 := by
  simp [readinessScore, readinessStep, slotNames, CarSlots.getSlot, fragilePerfCar,
    List.foldl, max_def, min_def]
  norm_num

theorem neutralA_eval :
    neutralScore (bqWeightOf raceC4x.event_type)
      (rawOf raceC4x.id raceC4x.event_type rngDnfO entryFragA fragilePerfCar) = 575/6 := by
  rw [neutralScore, rawOf_bq_proj, rawOf_ef_proj, rawOf_rs_proj,
    buildQuality_fragA, eventFit_fragA_sprint, readinessScore_fragA]
  simp [bqWeightOf, raceC4x, strTimeTrial]
  norm_num

theorem neutralB_eval :
    neutralScore (bqWeightOf raceC4x.event_type)
      (rawOf raceC4x.id raceC4x.event_type rngDnfO entryStdB stdCar) = 55 := by
  rw [neutralScore, rawOf_bq_proj, rawOf_ef_proj, rawOf_rs_proj,
    buildQuality_stdCar, eventFit_stdCar_sprint, readinessScore_stdCar]
  simp [bqWeightOf, raceC4x, strTimeTrial]
  norm_num

theorem neutralPairsC4x_eval : neutralPairs rngDnfO raceC4x =
    [(entryStdB.player_id, 55), (entryFragA.player_id, 575/6)] := by
  unfold neutralPairs
  rw [sortedRawC4x_eval]
  simp only [List.map_cons, List.map_nil, rawOf_pid_proj, neutralA_eval, neutralB_eval]

theorem cfSortedC4x_eval : sortDesc (fun p => p.2) (neutralPairs rngDnfO raceC4x)
    = [(entryFragA.player_id, 575/6), (entryStdB.player_id, 55)] := by
  rw [neutralPairsC4x_eval]
  simp [sortDesc, insertDesc]
  norm_num

theorem simC4x_getD0_cf :
    ((simulate_race rngDnfO gtagsZero raceC4x).getD 0 default).counterfactual_position
      = 2 := by
  have h : simulate_race rngDnfO gtagsZero raceC4x
      = buildResults gtagsZero (cfRankOf rngDnfO raceC4x) (sortedRaw rngDnfO raceC4x) 1 0 := rfl
  rw [h, sortedRawC4x_eval]
  simp only [buildResults, mkEntryResult, List.getD_cons_zero]
  rw [rawOf_pid_proj, cfRankOf, cfSortedC4x_eval]
  simp [dictRank, dictRankAux, entryStdB, entryFragA]

theorem simC4x_getD0_pos :
    ((simulate_race rngDnfO gtagsZero raceC4x).getD 0 default).position = 1 := by
  have h : simulate_race rngDnfO gtagsZero raceC4x
      = buildResults gtagsZero (cfRankOf rngDnfO raceC4x) (sortedRaw rngDnfO raceC4x) 1 0 := rfl
  rw [h, sortedRawC4x_eval]
  simp [buildResults, mkEntryResult]

/-- Claim C4 counterexample: in `raceC4x` every luck delta is zero, yet
the DNF entrant (and its beneficiary) have counterfactual positions that
differ from their actual positions, because the counterfactual re-ranking
ignores the DNF zeroing. -/
theorem counterfactual_diverges_with_zero_luck :
    (∀ r ∈ simulate_race rngDnfO gtagsZero raceC4x, r.luck_delta = 0) ∧
    ∃ r ∈ simulate_race rngDnfO gtagsZero raceC4x,
      r.counterfactual_position ≠ r.position := by
  have h : simulate_race rngDnfO gtagsZero raceC4x
      = buildResults gtagsZero (cfRankOf rngDnfO raceC4x) (sortedRaw rngDnfO raceC4x) 1 0 := rfl
  constructor
  · intro r hr
    rw [h, sortedRawC4x_eval] at hr
    simp only [buildResults, List.mem_cons, List.not_mem_nil, or_false] at hr
    rcases hr with hr | hr <;>
      (subst hr
       simp [mkEntryResult, rawOf_luck_proj, rngDnfO, entryStdB, entryFragA, raceC4x,
         roundTo_zero])
  · refine ⟨(simulate_race rngDnfO gtagsZero raceC4x).getD 0 default, ?_, ?_⟩
    · have hlen : 0 < (simulate_race rngDnfO gtagsZero raceC4x).length := by
        rw [simC4x_length]; norm_num
      rw [List.getD_eq_getElem _ _ hlen]
      exact List.getElem_mem hlen
    · rw [simC4x_getD0_cf, simC4x_getD0_pos]
      norm_num

/-! Staged evaluation of `raceAB` under the zero-luck oracle (claim C4
witness). -/

theorem checkDnf_perfA : checkDnf perfCar (rngZeroO raceAB.id entryPerfA.player_id).rolls
    = none := by
  simp [checkDnf, checkDnfAux, slotNames, CarSlots.getSlot, perfCar,
    rngZeroO, entryPerfA, raceAB]
  norm_num

theorem checkDnf_stdB0 : checkDnf stdCar (rngZeroO raceAB.id entryStdB.player_id).rolls
    = none := by
  simp [checkDnf, checkDnfAux, slotNames, CarSlots.getSlot, stdCar,
    rngZeroO, entryStdB, raceAB]
  norm_num

theorem rawListAB_eval : rawList rngZeroO raceAB =
    [rawOf raceAB.id raceAB.event_type rngZeroO entryPerfA perfCar,
     rawOf raceAB.id raceAB.event_type rngZeroO entryStdB stdCar] := by
  simp [rawList, raceAB, entryPerfA, entryStdB, List.filterMap]

theorem buildQuality_perf : buildQuality perfCar = 100 := by
  simp [buildQuality, slotNames, CarSlots.getSlot, perfCar, tierScore]
  norm_num

theorem eventFit_perf_sprintAB : (eventFit perfCar raceAB.event_type).1 = 100 := by
  simp [eventFit, slotNames, CarSlots.getSlot, perfCar, tierScore,
    eventSlotWeights, raceAB, strWetTrack, strNightRace, strEndurance, strWeightLimit,
    max_def, min_def]
  norm_num

theorem readinessScore_perfAB :
    (readinessScore perfCar (eventFit perfCar raceAB.event_type).2).1 = 100 := by
  simp [readinessScore, readinessStep, slotNames, CarSlots.getSlot, perfCar,
    List.foldl, max_def, min_def]
  norm_num

theorem buildQuality_stdAB : buildQuality stdCar = 40 := buildQuality_stdCar

theorem eventFit_std_sprintAB : (eventFit stdCar raceAB.event_type).1 = 40 := by
  have h : raceAB.event_type = raceC4x.event_type := rfl
  rw [h]; exact eventFit_stdCar_sprint

theorem readinessScore_stdAB :
    (readinessScore stdCar (eventFit stdCar raceAB.event_type).2).1 = 100 := by
  have h : raceAB.event_type = raceC4x.event_type := rfl
  rw [h]; exact readinessScore_stdCar

/-- Claim C4 witness: the amended statement applied to the concrete race
`raceAB` under the zero-luck oracle. -/
theorem counterfactual_eq_position_witness :
    (((rawList rngZeroO raceAB).map (fun r => r.player_id)).Nodup) ∧
    (∀ rr ∈ rawList rngZeroO raceAB, rr.luck_delta = 0 ∧ rr.dnf = false ∧
      0 ≤ neutralScore (bqWeightOf raceAB.event_type) rr ∧
      neutralScore (bqWeightOf raceAB.event_type) rr ≤ 100) ∧
    ∀ r ∈ simulate_race rngZeroO gtagsZero raceAB,
      r.counterfactual_position = r.position := by
  have hnodup : ((rawList rngZeroO raceAB).map (fun r => r.player_id)).Nodup := by
    rw [rawListAB_eval]
    simp [rawOf_pid_proj, entryPerfA, entryStdB]
  have hall : ∀ rr ∈ rawList rngZeroO raceAB, rr.luck_delta = 0 ∧ rr.dnf = false ∧
      0 ≤ neutralScore (bqWeightOf raceAB.event_type) rr ∧
      neutralScore (bqWeightOf raceAB.event_type) rr ≤ 100 := by
    intro rr hrr
    rw [rawListAB_eval] at hrr
    simp only [List.mem_cons, List.not_mem_nil, or_false] at hrr
    rcases hrr with hrr | hrr <;> subst hrr
    · refine ⟨by simp [rawOf_luck_proj, rngZeroO], ?_, ?_, ?_⟩
      · rw [rawOf_dnf_proj, checkDnf_perfA]; rfl
      · rw [neutralScore, rawOf_bq_proj, rawOf_ef_proj, rawOf_rs_proj,
          buildQuality_perf, eventFit_perf_sprintAB, readinessScore_perfAB]
        simp [bqWeightOf, raceAB, strTimeTrial]
        norm_num
      · rw [neutralScore, rawOf_bq_proj, rawOf_ef_proj, rawOf_rs_proj,
          buildQuality_perf, eventFit_perf_sprintAB, readinessScore_perfAB]
        simp [bqWeightOf, raceAB, strTimeTrial]
        norm_num
    · refine ⟨by simp [rawOf_luck_proj, rngZeroO], ?_, ?_, ?_⟩
      · rw [rawOf_dnf_proj, checkDnf_stdB0]; rfl
      · rw [neutralScore, rawOf_bq_proj, rawOf_ef_proj, rawOf_rs_proj,
          buildQuality_stdAB, eventFit_std_sprintAB, readinessScore_stdAB]
        simp [bqWeightOf, raceAB, strTimeTrial]
        norm_num
      · rw [neutralScore, rawOf_bq_proj, rawOf_ef_proj, rawOf_rs_proj,
          buildQuality_stdAB, eventFit_std_sprintAB, readinessScore_stdAB]
        simp [bqWeightOf, raceAB, strTimeTrial]
        norm_num
  exact ⟨hnodup, hall,
    counterfactual_eq_position_of_no_luck rngZeroO gtagsZero raceAB hnodup hall⟩

/-! ## Claim C1: luck tags come from the process-global RNG -/

theorem rawListC1x_eval : rawList rngLuck6O raceC1x =
    [rawOf raceC1x.id raceC1x.event_type rngLuck6O entryStdA stdCar] := by
  simp [rawList, raceC1x, entryStdA, List.filterMap]

theorem sortedRawC1x_eval : sortedRaw rngLuck6O raceC1x =
    [rawOf raceC1x.id raceC1x.event_type rngLuck6O entryStdA stdCar] := by
  rw [sortedRaw, rawListC1x_eval]
  simp [sortDesc, insertDesc]

/-- Claim C1: two calls of `simulate_race` on the identical race, with the
identical seeded per-entrant RNG but different states of the process-global
`random` module, return different outcomes — the luck tag is drawn via
`random.choice` from shared global state, contradicting the documented
claim that all randomness is seeded per entrant from the race. -/
theorem simulate_race_global_tag_nondeterminism :
    simulate_race rngLuck6O gtagsZero raceC1x ≠ simulate_race rngLuck6O gtagsOne raceC1x := by
  have h0 : simulate_race rngLuck6O gtagsZero raceC1x
      = buildResults gtagsZero (cfRankOf rngLuck6O raceC1x) (sortedRaw rngLuck6O raceC1x) 1 0 := rfl
  have h1 : simulate_race rngLuck6O gtagsOne raceC1x
      = buildResults gtagsOne (cfRankOf rngLuck6O raceC1x) (sortedRaw rngLuck6O raceC1x) 1 0 := rfl
  have htag0 : ((simulate_race rngLuck6O gtagsZero raceC1x).getD 0 default).luck_tag
      = luckTagsPositive.getD 0 luckTagNeutral := by
    rw [h0, sortedRawC1x_eval]
    simp only [buildResults, mkEntryResult, List.getD_cons_zero]
    rw [rawOf_luck_proj]
    simp [luckTag, rngLuck6O, gtagsZero, luckTagsPositive]
    norm_num
  have htag1 : ((simulate_race rngLuck6O gtagsOne raceC1x).getD 0 default).luck_tag
      = luckTagsPositive.getD 1 luckTagNeutral := by
    rw [h1, sortedRawC1x_eval]
    simp only [buildResults, mkEntryResult, List.getD_cons_zero]
    rw [rawOf_luck_proj]
    simp [luckTag, rngLuck6O, gtagsOne, luckTagsPositive]
    norm_num
  intro heq
  have : luckTagsPositive.getD 0 luckTagNeutral = luckTagsPositive.getD 1 luckTagNeutral := by
    rw [← htag0, ← htag1, heq]
  simp [luckTagsPositive] at this

/-! ## Claim C6: the readiness score -/

theorem foldl_readinessStep_fst (car : CarSlots) :
    ∀ (l : List SlotName) (acc : ℚ × List (SlotName × SlotResult)),
      (l.foldl (readinessStep car) acc).1 =
        acc.1 + (l.map (fun s =>
          if (car.getSlot s).readiness < 50 then
            max 0 ((car.getSlot s).readiness - (50 - (car.getSlot s).readiness))
          else (car.getSlot s).readiness)).sum := by
  intro l
  induction l with
  | nil => intro acc; simp
  | cons s rest ih =>
    intro acc
    rw [List.foldl_cons, ih]
    simp only [List.map_cons, List.sum_cons]
    have hstep : (readinessStep car acc s).1 = acc.1 +
        (if (car.getSlot s).readiness < 50 then
          max 0 ((car.getSlot s).readiness - (50 - (car.getSlot s).readiness))
        else (car.getSlot s).readiness) := by
      simp only [readinessStep]
      split_ifs <;> rfl
    rw [hstep]
    ring

/-- Claim C6: the readiness score is the mean over the six slots where a
slot with readiness strictly below 50 contributes its readiness with the
shortfall below 50 subtracted again (floored at 0), and a slot at 50 or
above contributes its readiness unchanged. -/
theorem readinessScore_mean_double_penalty (car : CarSlots)
    (perSlot : List (SlotName × SlotResult)) :
    (readinessScore car perSlot).1 =
      (slotNames.map (fun s =>
        if (car.getSlot s).readiness < 50 then
          max 0 ((car.getSlot s).readiness - (50 - (car.getSlot s).readiness))
        else (car.getSlot s).readiness)).sum / 6 := by
  show ((slotNames.foldl (readinessStep car) (0, perSlot)).1) / (slotNames.length : ℚ) = _
  rw [foldl_readinessStep_fst]
  norm_num [slotNames]

/-! ## Claim C9: wear bounds -/

theorem getSlot_apply_wear (car : CarSlots) (e : String) (s : SlotName) :
    (apply_wear car e).getSlot s = wearSlot e s (car.getSlot s) := by
  cases s <;> rfl

theorem wearMultiplier_ge (e : String) : 4/5 ≤ wearMultiplier e := by
  unfold wearMultiplier
  split_ifs <;> norm_num

/-- Claim C9: wear never changes the tier of a slot, and leaves its readiness
between 0 and the pre-wear value, each slot losing the base wear scaled by
the event multiplier, 50 percent more for stressed slots. -/
theorem apply_wear_bounds (car : CarSlots) (eventType : String) (s : SlotName)
    (h : 0 ≤ (car.getSlot s).readiness) :
    ((apply_wear car eventType).getSlot s).tier = (car.getSlot s).tier ∧
    0 ≤ ((apply_wear car eventType).getSlot s).readiness ∧
    ((apply_wear car eventType).getSlot s).readiness ≤ (car.getSlot s).readiness ∧
    ((apply_wear car eventType).getSlot s).readiness =
      roundTo 1 (max 0 ((car.getSlot s).readiness -
        baseWearPct * wearMultiplier eventType *
        (if (stressedSlots eventType).contains s then 3/2 else 1))) := by
  rw [getSlot_apply_wear]
  have hread : (wearSlot eventType s (car.getSlot s)).readiness =
      roundTo 1 (max 0 ((car.getSlot s).readiness -
        baseWearPct * wearMultiplier eventType *
        (if (stressedSlots eventType).contains s then 3/2 else 1))) := rfl
  have hw12 : 12 ≤ baseWearPct * wearMultiplier eventType *
      (if (stressedSlots eventType).contains s then 3/2 else 1) := by
    have h1 := wearMultiplier_ge eventType
    have h2 : (1:ℚ) ≤ (if (stressedSlots eventType).contains s then (3/2:ℚ) else 1) := by
      split_ifs <;> norm_num
    have h0m : (0:ℚ) ≤ wearMultiplier eventType := by linarith
    have h3 : (4/5:ℚ) * 1 ≤ wearMultiplier eventType *
        (if (stressedSlots eventType).contains s then (3/2:ℚ) else 1) :=
      mul_le_mul h1 h2 (by norm_num) h0m
    have hb : baseWearPct = 15 := rfl
    rw [hb, mul_assoc]
    linarith [h3]
  refine ⟨rfl, ?_, ?_, hread⟩
  · rw [hread]
    exact roundTo_nonneg 1 (le_max_left 0 _)
  · rw [hread]
    set w := baseWearPct * wearMultiplier eventType *
      (if (stressedSlots eventType).contains s then 3/2 else 1) with hwdef
    rcases le_or_lt ((car.getSlot s).readiness - w) 0 with hle | hgt
    · rw [max_eq_left hle, roundTo_zero]
      exact h
    · rw [max_eq_right (le_of_lt hgt)]
      have hr := roundTo_le_add 1 ((car.getSlot s).readiness - w)
      have hsmall : 1 / (2 * (10:ℚ)^1) = 1/20 := by norm_num
      rw [hsmall] at hr
      linarith

/-- Claim C9 witness: the bounds instantiated at the standard car on a
sprint race for the engine slot. -/
theorem apply_wear_bounds_witness :
    (0 ≤ (stdCar.getSlot SlotName.engine).readiness) ∧
    (((apply_wear stdCar strSprint).getSlot SlotName.engine).tier
        = (stdCar.getSlot SlotName.engine).tier ∧
      0 ≤ ((apply_wear stdCar strSprint).getSlot SlotName.engine).readiness ∧
      ((apply_wear stdCar strSprint).getSlot SlotName.engine).readiness
        ≤ (stdCar.getSlot SlotName.engine).readiness ∧
      ((apply_wear stdCar strSprint).getSlot SlotName.engine).readiness =
        roundTo 1 (max 0 ((stdCar.getSlot SlotName.engine).readiness -
          baseWearPct * wearMultiplier strSprint *
          (if (stressedSlots strSprint).contains SlotName.engine then 3/2 else 1)))) := by
  have h : 0 ≤ (stdCar.getSlot SlotName.engine).readiness := by
    norm_num [stdCar, CarSlots.getSlot]
  exact ⟨h, apply_wear_bounds stdCar strSprint SlotName.engine h⟩

/-! ## Claim C8: the speed profile never exceeds the raw targets -/

theorem getD_set_le {l : List ℚ} {i : ℕ} {v : ℚ} (h : v ≤ l.getD i 0) (j : ℕ) :
    (l.set i v).getD j 0 ≤ l.getD j 0 := by
  by_cases hj : j < l.length
  · have hj2 : j < (l.set i v).length := by rw [List.length_set]; exact hj
    rw [List.getD_eq_getElem _ _ hj2, List.getD_eq_getElem _ _ hj]
    by_cases hij : i = j
    · subst hij
      rw [List.getElem_set_self _]
      rw [← List.getD_eq_getElem _ _ hj]
      exact h
    · rw [List.getElem_set_ne hij _]
  · have hj2 : ¬ j < (l.set i v).length := by rw [List.length_set]; exact hj
    rw [List.getD_eq_default _ _ (le_of_not_lt hj), List.getD_eq_default _ _ (le_of_not_lt hj2)]

theorem passStep_le (limitOf : List ℚ → ℕ → ℚ) (st : List ℚ × Bool) (i j : ℕ) :
    ((passStep limitOf st i).1).getD j 0 ≤ st.1.getD j 0 := by
  show ((if limitOf st.1 i + 1/100 < st.1.getD i 0
    then (st.1.set i (limitOf st.1 i), true) else st).1).getD j 0 ≤ st.1.getD j 0
  split_ifs with hcond
  · exact getD_set_le (by linarith) j
  · exact le_refl _

theorem foldl_passStep_le (limitOf : List ℚ → ℕ → ℚ) (idxs : List ℕ) :
    ∀ (st : List ℚ × Bool) (j : ℕ),
      ((idxs.foldl (passStep limitOf) st).1).getD j 0 ≤ st.1.getD j 0 := by
  induction idxs with
  | nil => intro st j; exact le_refl _
  | cons i rest ih =>
    intro st j
    rw [List.foldl_cons]
    exact le_trans (ih _ j) (passStep_le limitOf st i j)

theorem onePass_le (sq : ℚ → ℚ) (n : ℕ) (st : List ℚ × Bool) (j : ℕ) :
    ((onePass sq n st).1).getD j 0 ≤ st.1.getD j 0 := by
  unfold onePass
  exact le_trans (foldl_passStep_le _ _ _ j) (foldl_passStep_le _ _ _ j)

theorem iterPasses_le (sq : ℚ → ℚ) (n : ℕ) :
    ∀ (k : ℕ) (sp : List ℚ) (j : ℕ), (iterPasses sq n k sp).getD j 0 ≤ sp.getD j 0 := by
  intro k
  induction k with
  | zero => intro sp j; exact le_refl _
  | succ k ih =>
    intro sp j
    have hbase := onePass_le sq n (sp, false) j
    show (if (onePass sq n (sp, false)).2 then iterPasses sq n k (onePass sq n (sp, false)).1
      else (onePass sq n (sp, false)).1).getD j 0 ≤ sp.getD j 0
    by_cases h2 : (onePass sq n (sp, false)).2
    · rw [if_pos h2]
      exact le_trans (ih _ j) hbase
    · rw [if_neg h2]
      exact hbase

theorem rawSpeeds_getD (track : TrackData) {i : ℕ} (hi : i < track.path_order.length) :
    (rawSpeeds track).getD i 0 = rawSpeedAt track i := by
  rw [rawSpeeds]
  rw [List.getD_eq_getElem _ _ (by simpa using hi), List.getElem_map]
  congr 1
  simp

/-- Claim C8: every entry of the speed profile is at most the raw
per-type target speed of its tile, and the raw targets are ordered
chicane < curve < straight; the constraint sweeps only ever lower
speeds. The square root used by the braking and acceleration limits is
abstracted by `sq`, so the bound holds for any interpretation of it,
and in particular for the float square root of the source. -/
theorem build_speed_profile_le_raw (sq : ℚ → ℚ) (track : TrackData) :
    CHICANE_SPEED_FPS < CORNER_SPEED_FPS ∧ CORNER_SPEED_FPS < TOP_SPEED_FPS ∧
    ∀ i, i < track.path_order.length →
      (build_speed_profile sq track).getD i 0 ≤ rawSpeedAt track i := by
  refine ⟨by norm_num [CHICANE_SPEED_FPS, CORNER_SPEED_FPS, MPH_TO_FPS],
    by norm_num [CORNER_SPEED_FPS, TOP_SPEED_FPS, MPH_TO_FPS], ?_⟩
  intro i hi
  have h := iterPasses_le sq track.path_order.length 10 (rawSpeeds track) i
  rw [rawSpeeds_getD track hi] at h
  exact h

/-- Claim C8 witness: the bound instantiated at the concrete three-tile
track and the identity interpretation of the square root. -/
theorem build_speed_profile_le_raw_witness :
    (0 < trackX.path_order.length) ∧
    (build_speed_profile (fun x => x) trackX).getD 0 0 ≤ rawSpeedAt trackX 0 := by
  have hlen : 0 < trackX.path_order.length := by norm_num [trackX]
  exact ⟨hlen, (build_speed_profile_le_raw (fun x => x) trackX).2.2 0 hlen⟩

/-! ## Claim C10: the generator produces only straight and curve tiles -/

theorem tileTypeOrientation_type (a b : GridPos) :
    (tileTypeOrientation a b).1 = "straight" ∨ (tileTypeOrientation a b).1 = "curve" := by
  unfold tileTypeOrientation
  split_ifs with h1 h2
  · left; rfl
  · left; rfl
  · cases hco : curveOrientation (compassLabel a) (compassLabel b) with
    | none => simp [hco]
    | some o => simp [hco]

theorem buildTrackData_types (path : List GridPos) (n : ℕ) :
    ∀ t ∈ (buildTrackData path n).tiles, t.type = "straight" ∨ t.type = "curve" := by
  intro t ht
  simp only [buildTrackData, List.mem_map] at ht
  obtain ⟨i, _, hteq⟩ := ht
  rw [← hteq]
  exact tileTypeOrientation_type _ _

theorem genTrackLoop_types (n : ℕ) (pick : ℕ → ℕ) :
    ∀ (retries t : ℕ), ∀ tl ∈ (genTrackLoop n pick retries t).tiles,
      tl.type = "straight" ∨ tl.type = "curve" := by
  intro retries
  induction retries with
  | zero =>
    intro t tl h
    exact buildTrackData_types _ _ tl h
  | succ r ih =>
    intro t tl h
    simp only [genTrackLoop] at h
    rcases h2 : tryWalk n pick t with ⟨op, t2⟩
    rw [h2] at h
    cases op with
    | some path => exact buildTrackData_types _ _ tl h
    | none => exact ih t2 tl h

/-- Claim C10: every tile of every generated track is typed straight or
curve; the chicane tile type is never produced on any return path of the
track generator. -/
theorem generate_track_no_chicane (n : ℕ) (pick : ℕ → ℕ) :
    ∀ t ∈ (generate_track n pick).tiles, t.type = "straight" ∨ t.type = "curve" :=
  genTrackLoop_types n pick 10 0

/-- Claim C10 witness: the first tile of the concrete 4×4 generated track
is a straight or a curve. -/
theorem generate_track_no_chicane_witness :
    ((generate_track 4 pickZero).tiles.getD 0 default ∈ (generate_track 4 pickZero).tiles) ∧
    (((generate_track 4 pickZero).tiles.getD 0 default).type = "straight" ∨
     ((generate_track 4 pickZero).tiles.getD 0 default).type = "curve") := by
  have hlen : 0 < (generate_track 4 pickZero).tiles.length := by decide
  have hmem : (generate_track 4 pickZero).tiles.getD 0 default
      ∈ (generate_track 4 pickZero).tiles := by
    rw [List.getD_eq_getElem _ _ hlen]
    exact List.getElem_mem hlen
  exact ⟨hmem, generate_track_no_chicane 4 pickZero _ hmem⟩

/-! ## Claim C2: generated tracks are simple closed cycles -/

theorem mem_neighbors_isAdj {c p : GridPos} (h : p ∈ neighborsOf c) : isAdj c p = true := by
  simp only [neighborsOf, walkDirs, List.map_cons, List.map_nil, List.mem_cons,
    List.not_mem_nil, or_false] at h
  simp only [isAdj, decide_eq_true_eq]
  rcases h with h | h | h | h <;> (subst h; omega)

theorem candidates_spec {n : ℕ} {visited : List GridPos} {c p : GridPos}
    (h : p ∈ candidatesOf n visited c) : p ∈ neighborsOf c ∧ p ∉ visited := by
  simp only [candidatesOf, List.mem_filter, Bool.and_eq_true] at h
  refine ⟨h.1, ?_⟩
  intro hmem
  have hc : visited.contains p = true := List.elem_iff.mpr hmem
  have := h.2.2
  rw [hc] at this
  simp at this

theorem walkAux_some_spec (n : ℕ) (pick : ℕ → ℕ) (minSteps : ℕ) :
    ∀ (fuel t : ℕ) (visited path : List GridPos) (current : GridPos),
      path ≠ [] →
      path.head? = some ((0, 0) : GridPos) →
      path.getLast? = some current →
      path.Nodup →
      List.Chain' (fun a b => isAdj a b = true) path →
      (∀ p ∈ path, p ∈ visited) →
      ∀ result t2, walkAux n pick minSteps fuel t visited path current = (some result, t2) →
        ∃ q, result = q ++ [((0, 0) : GridPos)] ∧ q.Nodup ∧
          List.Chain' (fun a b => isAdj a b = true) q ∧
          q.head? = some ((0, 0) : GridPos) ∧
          (∃ c2, q.getLast? = some c2 ∧ isAdj c2 ((0, 0) : GridPos) = true) ∧
          minSteps ≤ q.length := by
  intro fuel
  induction fuel with
  | zero =>
    intro t visited path current _ _ _ _ _ _ result t2 h
    simp [walkAux] at h
  | succ fuel ih =>
    intro t visited path current hne hhead hlast hnd hch hsub result t2 h
    rw [walkAux] at h
    by_cases hclose : minSteps ≤ path.length ∧
        (neighborsOf current).contains ((0, 0) : GridPos) = true
    · rw [if_pos hclose] at h
      have hres : result = path ++ [((0, 0) : GridPos)] :=
        (Option.some.inj (congrArg Prod.fst h)).symm
      have hadj : isAdj current ((0, 0) : GridPos) = true :=
        mem_neighbors_isAdj (List.elem_iff.mp hclose.2)
      exact ⟨path, hres, hnd, hch, hhead, ⟨current, hlast, hadj⟩, hclose.1⟩
    · rw [if_neg hclose] at h
      by_cases hc0 : (candidatesOf n visited current).length = 0
      · rw [if_pos hc0] at h
        simp at h
      · rw [if_neg hc0] at h
        set cands := candidatesOf n visited current with hcands
        set c := cands.getD (pick t % cands.length) ((0, 0) : GridPos) with hcdef
        have hlt : pick t % cands.length < cands.length :=
          Nat.mod_lt _ (Nat.pos_of_ne_zero hc0)
        have hcmem : c ∈ cands := by
          rw [hcdef, List.getD_eq_getElem _ _ hlt]
          exact List.getElem_mem hlt
        obtain ⟨hnb, hnotv⟩ := candidates_spec (hcands ▸ hcmem)
        refine ih (t + 1) (visited ++ [c]) (path ++ [c]) c (by simp) ?_
          (List.getLast?_concat path) ?_ ?_ ?_ result t2 h
        · rw [List.head?_append_of_ne_nil _ hne]
          exact hhead
        · rw [List.nodup_append]
          refine ⟨hnd, List.nodup_singleton c, ?_⟩
          rw [List.disjoint_singleton]
          intro hcp
          exact hnotv (hsub c hcp)
        · refine hch.append (List.chain'_singleton c) ?_
          intro x hx y hy
          rw [hlast] at hx
          simp only [Option.mem_def, Option.some.injEq] at hx
          simp only [List.head?_cons, Option.mem_def, Option.some.injEq] at hy
          subst hx
          subst hy
          exact mem_neighbors_isAdj hnb
        · intro p hp
          rcases List.mem_append.mp hp with hp | hp
          · exact List.mem_append_left _ (hsub p hp)
          · exact List.mem_append_right _ hp

theorem tryWalk_some_spec (n : ℕ) (pick : ℕ → ℕ) (t : ℕ) (result : List GridPos) (t2 : ℕ)
    (h : tryWalk n pick t = (some result, t2)) :
    ∃ q, result = q ++ [((0, 0) : GridPos)] ∧ q.Nodup ∧
      List.Chain' (fun a b => isAdj a b = true) q ∧
      q.head? = some ((0, 0) : GridPos) ∧
      (∃ c2, q.getLast? = some c2 ∧ isAdj c2 ((0, 0) : GridPos) = true) ∧
      max 24 (n * 2) ≤ q.length := by
  refine walkAux_some_spec n pick (max 24 (n * 2)) (n * n) t
    [((0, 0) : GridPos)] [((0, 0) : GridPos)] ((0, 0) : GridPos)
    (by simp) (by simp) (by simp) (List.nodup_singleton _)
    (List.chain'_singleton _) (by simp) result t2 h

theorem cyclic_adj_of_chain (q : List GridPos) (hne : q ≠ [])
    (hch : List.Chain' (fun a b => isAdj a b = true) q)
    (hhead : q.head? = some ((0, 0) : GridPos))
    (hlastadj : ∃ c, q.getLast? = some c ∧ isAdj c ((0, 0) : GridPos) = true) :
    ∀ i, i < q.length →
      isAdj (q.getD i ((0, 0) : GridPos)) (q.getD ((i + 1) % q.length) ((0, 0) : GridPos))
        = true := by
  intro i hi
  by_cases hlt : i + 1 < q.length
  · have hmod : (i + 1) % q.length = i + 1 := Nat.mod_eq_of_lt hlt
    rw [hmod, List.getD_eq_getElem _ _ hi, List.getD_eq_getElem _ _ hlt]
    have hg := List.chain'_iff_get.mp hch i (by omega)
    simpa [List.get_eq_getElem] using hg
  · have hlen0 : 0 < q.length := List.length_pos.mpr hne
    have hieq : i = q.length - 1 := by omega
    have hmod : (i + 1) % q.length = 0 := by
      have h2 : i + 1 = q.length := by omega
      rw [h2]
      exact Nat.mod_self _
    obtain ⟨c, hlast, hadj⟩ := hlastadj
    rw [hmod, List.getD_eq_getElem _ _ hi, List.getD_eq_getElem _ _ hlen0]
    have h1 : q[i] = c := by
      subst hieq
      have hl := List.getLast?_eq_getLast q hne
      rw [hl] at hlast
      have hc2 : q.getLast hne = c := Option.some.inj hlast
      rw [← hc2, List.getLast_eq_getElem]
    have h0 : q[0] = ((0, 0) : GridPos) := by
      have hh := List.head?_eq_head hne
      rw [hh] at hhead
      have : q.head hne = ((0, 0) : GridPos) := Option.some.inj hhead
      rw [← this, List.head_eq_getElem]
    rw [h1, h0]
    exact hadj

theorem getD_map_range {α : Type} (f : ℕ → α) (m k : ℕ) (h : k < m) (d : α) :
    ((List.range m).map f).getD k d = f k := by
  rw [List.getD_eq_getElem _ _ (by simpa using h), List.getElem_map]
  congr 1
  simp

theorem ovalPath_length (n : ℕ) (hn : 4 ≤ n) : (ovalPath n).length = 4 * n - 12 := by
  simp only [ovalPath, List.length_append, List.length_map, List.length_range]
  omega

theorem ovalPath_getD (n : ℕ) (hn : 4 ≤ n) (k : ℕ) (hk : k < 4 * n - 12) :
    (ovalPath n).getD k ((0, 0) : GridPos) =
      (if k < n - 2 then ((1 + (k : ℤ), (1 : ℤ)) : GridPos)
       else if k < 2 * n - 5 then
         (((n : ℤ) - 2, 1 + 1 + ((k - (n - 2) : ℕ) : ℤ)) : GridPos)
       else if k < 3 * n - 8 then
         (((n : ℤ) - 2 - 1 - ((k - (2 * n - 5) : ℕ) : ℤ), (n : ℤ) - 2) : GridPos)
       else ((1, (n : ℤ) - 2 - 1 - ((k - (3 * n - 8) : ℕ) : ℤ)) : GridPos)) := by
  simp only [ovalPath]
  rw [List.append_assoc, List.append_assoc]
  by_cases h1 : k < n - 2
  · rw [if_pos h1]
    rw [List.getD_append _ _ _ _ (by simp only [List.length_map, List.length_range]; omega)]
    rw [getD_map_range _ _ _ (by omega)]
  · rw [if_neg h1]
    rw [List.getD_append_right _ _ _ _
      (by simp only [List.length_map, List.length_range]; omega)]
    simp only [List.length_map, List.length_range]
    by_cases h2 : k < 2 * n - 5
    · rw [if_pos h2]
      rw [List.getD_append _ _ _ _ (by simp only [List.length_map, List.length_range]; omega)]
      rw [getD_map_range _ _ _ (by omega)]
    · rw [if_neg h2]
      rw [List.getD_append_right _ _ _ _
        (by simp only [List.length_map, List.length_range]; omega)]
      simp only [List.length_map, List.length_range]
      by_cases h3 : k < 3 * n - 8
      · rw [if_pos h3]
        rw [List.getD_append _ _ _ _
          (by simp only [List.length_map, List.length_range]; omega)]
        rw [getD_map_range _ _ _ (by omega)]
        have he : k - (n - 2) - (n - 3) = k - (2 * n - 5) := by omega
        rw [he]
      · rw [if_neg h3]
        rw [List.getD_append_right _ _ _ _
          (by simp only [List.length_map, List.length_range]; omega)]
        simp only [List.length_map, List.length_range]
        rw [getD_map_range _ _ _ (by omega)]
        have he : k - (n - 2) - (n - 3) - (n - 3) = k - (3 * n - 8) := by omega
        rw [he]

theorem ovalPath_nodup (n : ℕ) (hn : 4 ≤ n) : (ovalPath n).Nodup := by
  show List.Pairwise (fun a b => a ≠ b) (ovalPath n)
  rw [List.pairwise_iff_getElem]
  intro i j hi hj hij
  have hi4 : i < 4 * n - 12 := by
    have h2 := hi
    rwa [ovalPath_length n hn] at h2
  have hj4 : j < 4 * n - 12 := by
    have h2 := hj
    rwa [ovalPath_length n hn] at h2
  have hgi : (ovalPath n)[i] = (ovalPath n).getD i ((0, 0) : GridPos) :=
    (List.getD_eq_getElem _ _ hi).symm
  have hgj : (ovalPath n)[j] = (ovalPath n).getD j ((0, 0) : GridPos) :=
    (List.getD_eq_getElem _ _ hj).symm
  rw [hgi, hgj, ovalPath_getD n hn i hi4, ovalPath_getD n hn j hj4]
  split_ifs <;> (simp only [Prod.mk.injEq, ne_eq]; omega)

theorem ovalPath_cyclic_adj (n : ℕ) (hn : 9 ≤ n) :
    ∀ i, i < (ovalPath n).length →
      isAdj ((ovalPath n).getD i ((0, 0) : GridPos))
        ((ovalPath n).getD ((i + 1) % (ovalPath n).length) ((0, 0) : GridPos)) = true := by
  intro i hi
  rw [ovalPath_length n (by omega)] at hi ⊢
  by_cases h : i + 1 < 4 * n - 12
  · have hmod : (i + 1) % (4 * n - 12) = i + 1 := Nat.mod_eq_of_lt h
    rw [hmod, ovalPath_getD n (by omega) i hi, ovalPath_getD n (by omega) (i + 1) h]
    simp only [isAdj, decide_eq_true_eq]
    split_ifs <;> omega
  · have heq : i + 1 = 4 * n - 12 := by omega
    have hmod : (i + 1) % (4 * n - 12) = 0 := by rw [heq]; exact Nat.mod_self _
    rw [hmod, ovalPath_getD n (by omega) i hi, ovalPath_getD n (by omega) 0 (by omega)]
    simp only [isAdj, decide_eq_true_eq]
    split_ifs <;> omega

theorem ovalFallback_path_order (n : ℕ) : (ovalFallback n).path_order = ovalPath n := by
  show (ovalPath n ++ [(ovalPath n).getD 0 ((0, 0) : GridPos)]).dropLast = ovalPath n
  exact List.dropLast_concat

theorem genTrackLoop_cycle (n : ℕ) (pick : ℕ → ℕ) (hn : 9 ≤ n) :
    ∀ (retries t : ℕ),
      ((genTrackLoop n pick retries t).path_order).Nodup ∧
      (∀ i, i < (genTrackLoop n pick retries t).path_order.length →
        isAdj ((genTrackLoop n pick retries t).path_order.getD i ((0, 0) : GridPos))
          ((genTrackLoop n pick retries t).path_order.getD
            ((i + 1) % (genTrackLoop n pick retries t).path_order.length)
            ((0, 0) : GridPos)) = true) ∧
      max 24 (2 * n) ≤ (genTrackLoop n pick retries t).path_order.length := by
  intro retries
  induction retries with
  | zero =>
    intro t
    have hpo0 : (genTrackLoop n pick 0 t).path_order = ovalPath n :=
      ovalFallback_path_order n
    rw [hpo0]
    refine ⟨ovalPath_nodup n (by omega), ovalPath_cyclic_adj n hn, ?_⟩
    rw [ovalPath_length n (by omega)]
    omega
  | succ r ih =>
    intro t
    rcases h2 : tryWalk n pick t with ⟨op, t2⟩
    cases op with
    | some path =>
      obtain ⟨q, hres, hnd, hch, hhead, hlastadj, hlen⟩ :=
        tryWalk_some_spec n pick t path t2 h2
      have hpo : (genTrackLoop n pick (r + 1) t).path_order = q := by
        simp only [genTrackLoop]
        rw [h2]
        show path.dropLast = q
        rw [hres]
        exact List.dropLast_concat
      rw [hpo]
      have hqne : q ≠ [] := by
        intro hq
        rw [hq] at hlen
        simp at hlen
      refine ⟨hnd, cyclic_adj_of_chain q hqne hch hhead hlastadj, ?_⟩
      omega
    | none =>
      have hpo : genTrackLoop n pick (r + 1) t = genTrackLoop n pick r t2 := by
        simp only [genTrackLoop]
        rw [h2]
      rw [hpo]
      exact ih t2

/-- Claim C2 (amended): for every grid size n at least 9 and every seed
oracle, the generated track is a single simple closed cycle of pairwise
distinct, consecutively grid-adjacent cells of length at least
max(24, 2n), on every return path including the oval fallback (whose
length is 4(n-3), which meets the minimum exactly when n is at least 9;
for 4 ≤ n ≤ 8 the fallback cycle is shorter than the minimum). -/
theorem generate_track_cycle (n : ℕ) (pick : ℕ → ℕ) (hn : 9 ≤ n) :
    ((generate_track n pick).path_order).Nodup ∧
    (∀ i, i < (generate_track n pick).path_order.length →
      isAdj ((generate_track n pick).path_order.getD i ((0, 0) : GridPos))
        ((generate_track n pick).path_order.getD
          ((i + 1) % (generate_track n pick).path_order.length)
          ((0, 0) : GridPos)) = true) ∧
    max 24 (2 * n) ≤ (generate_track n pick).path_order.length :=
  genTrackLoop_cycle n pick hn 10 0

/-- Claim C2 counterexample: at the admissible grid size n = 4 every walk
attempt fails (a 4×4 grid cannot host a 24-step self-avoiding walk), the
oval fallback is returned, and its cycle has only 4 cells — strictly below
the required minimum max(24, 2·4) = 24. -/
theorem generate_track_min_length_fails_at_4 :
    (generate_track 4 pickZero).path_order.length = 4 ∧
    ¬ max 24 (2 * 4) ≤ (generate_track 4 pickZero).path_order.length := by
  constructor
  · decide
  · decide

/-- Claim C2 witness: the amended statement applied at n = 9 with the
all-zero oracle. -/
theorem generate_track_cycle_witness :
    (9 ≤ 9) ∧ ((generate_track 9 pickZero).path_order).Nodup ∧
    max 24 (2 * 9) ≤ (generate_track 9 pickZero).path_order.length := by
  have h := generate_track_cycle 9 pickZero (by norm_num)
  exact ⟨by norm_num, h.1, h.2.2⟩

/-! ## Claim C7: tick-stream progress invariants -/

theorem getD_set_nonneg {l : List ℚ} {i : ℕ} {v : ℚ} (hv : 0 ≤ v)
    (hl : ∀ j, 0 ≤ l.getD j 0) (j : ℕ) : 0 ≤ (l.set i v).getD j 0 := by
  by_cases hj : j < l.length
  · have hj2 : j < (l.set i v).length := by rw [List.length_set]; exact hj
    rw [List.getD_eq_getElem _ _ hj2]
    by_cases hij : i = j
    · subst hij
      rw [List.getElem_set_self _]
      exact hv
    · rw [List.getElem_set_ne hij _]
      rw [← List.getD_eq_getElem _ _ hj]
      exact hl j
  · have hj2 : ¬ j < (l.set i v).length := by rw [List.length_set]; exact hj
    rw [List.getD_eq_default _ _ (le_of_not_lt hj2)]

theorem passStep_nonneg (limitOf : List ℚ → ℕ → ℚ) (hl : ∀ sp i, 0 ≤ limitOf sp i)
    (st : List ℚ × Bool) (hst : ∀ j, 0 ≤ st.1.getD j 0) (i j : ℕ) :
    0 ≤ ((passStep limitOf st i).1).getD j 0 := by
  show 0 ≤ ((if limitOf st.1 i + 1/100 < st.1.getD i 0
    then (st.1.set i (limitOf st.1 i), true) else st).1).getD j 0
  split_ifs with hcond
  · exact getD_set_nonneg (hl _ _) hst j
  · exact hst j

theorem foldl_passStep_nonneg (limitOf : List ℚ → ℕ → ℚ) (hl : ∀ sp i, 0 ≤ limitOf sp i)
    (idxs : List ℕ) :
    ∀ (st : List ℚ × Bool), (∀ j, 0 ≤ st.1.getD j 0) →
      ∀ j, 0 ≤ ((idxs.foldl (passStep limitOf) st).1).getD j 0 := by
  induction idxs with
  | nil => intro st hst j; exact hst j
  | cons i rest ih =>
    intro st hst j
    rw [List.foldl_cons]
    exact ih _ (fun j2 => passStep_nonneg limitOf hl st hst i j2) j

theorem onePass_nonneg (sq : ℚ → ℚ) (hsq : ∀ x, 0 ≤ sq x) (n : ℕ) (st : List ℚ × Bool)
    (hst : ∀ j, 0 ≤ st.1.getD j 0) (j : ℕ) :
    0 ≤ ((onePass sq n st).1).getD j 0 := by
  unfold onePass
  exact foldl_passStep_nonneg (accelLimit sq n) (fun sp i => hsq _) (List.range n) _
    (foldl_passStep_nonneg (brakeLimit sq n) (fun sp i => hsq _) (List.range n) st hst) j

theorem iterPasses_nonneg (sq : ℚ → ℚ) (hsq : ∀ x, 0 ≤ sq x) (n : ℕ) :
    ∀ (k : ℕ) (sp : List ℚ), (∀ j, 0 ≤ sp.getD j 0) →
      ∀ j, 0 ≤ (iterPasses sq n k sp).getD j 0 := by
  intro k
  induction k with
  | zero => intro sp hsp j; exact hsp j
  | succ k ih =>
    intro sp hsp j
    have hbase : ∀ j2, 0 ≤ ((onePass sq n (sp, false)).1).getD j2 0 :=
      fun j2 => onePass_nonneg sq hsq n (sp, false) hsp j2
    show 0 ≤ (if (onePass sq n (sp, false)).2 then iterPasses sq n k (onePass sq n (sp, false)).1
      else (onePass sq n (sp, false)).1).getD j 0
    by_cases h2 : (onePass sq n (sp, false)).2
    · rw [if_pos h2]; exact ih _ hbase j
    · rw [if_neg h2]; exact hbase j

theorem rawSpeedAt_bounds (track : TrackData) (i : ℕ) :
    0 ≤ rawSpeedAt track i ∧ rawSpeedAt track i ≤ TOP_SPEED_FPS := by
  simp only [rawSpeedAt]
  split_ifs <;> constructor <;>
    norm_num [CHICANE_SPEED_FPS, CORNER_SPEED_FPS, TOP_SPEED_FPS, MPH_TO_FPS]

theorem rawSpeeds_getD_bounds (track : TrackData) (j : ℕ) :
    0 ≤ (rawSpeeds track).getD j 0 ∧ (rawSpeeds track).getD j 0 ≤ TOP_SPEED_FPS := by
  by_cases hj : j < track.path_order.length
  · rw [rawSpeeds_getD track hj]
    exact rawSpeedAt_bounds track j
  · have hlen : (rawSpeeds track).length ≤ j := by
      rw [rawSpeeds, List.length_map, List.length_range]
      omega
    rw [List.getD_eq_default _ _ hlen]
    norm_num [TOP_SPEED_FPS, MPH_TO_FPS]

theorem profileOf_fst_bounds (sq : ℚ → ℚ) (track : Option TrackData) (hsq : ∀ x, 0 ≤ sq x)
    (j : ℕ) :
    0 ≤ (profileOf sq track).1.getD j 0 ∧ (profileOf sq track).1.getD j 0 ≤ TOP_SPEED_FPS := by
  have htop : (0:ℚ) ≤ TOP_SPEED_FPS := by norm_num [TOP_SPEED_FPS, MPH_TO_FPS]
  have hflat : 0 ≤ ([TOP_SPEED_FPS] : List ℚ).getD j 0 ∧
      ([TOP_SPEED_FPS] : List ℚ).getD j 0 ≤ TOP_SPEED_FPS := by
    cases j with
    | zero => exact ⟨htop, le_refl _⟩
    | succ m => exact ⟨le_refl 0, htop⟩
  cases track with
  | none => exact hflat
  | some t =>
    show 0 ≤ (if t.path_order.length ≠ 0 then (build_speed_profile sq t, t.path_order.length)
        else ([TOP_SPEED_FPS], 1)).1.getD j 0 ∧
      (if t.path_order.length ≠ 0 then (build_speed_profile sq t, t.path_order.length)
        else ([TOP_SPEED_FPS], 1)).1.getD j 0 ≤ TOP_SPEED_FPS
    split_ifs with hlen
    · unfold build_speed_profile
      constructor
      · exact iterPasses_nonneg sq hsq _ 10 _ (fun j2 => (rawSpeeds_getD_bounds t j2).1) j
      · exact le_trans (iterPasses_le sq _ 10 _ j) (rawSpeeds_getD_bounds t j).2
    · exact hflat

theorem profileOf_snd_pos (sq : ℚ → ℚ) (track : Option TrackData) :
    1 ≤ (profileOf sq track).2 := by
  cases track with
  | none => exact le_refl 1
  | some t =>
    show 1 ≤ (if t.path_order.length ≠ 0 then (build_speed_profile sq t, t.path_order.length)
      else ([TOP_SPEED_FPS], 1)).2
    split_ifs with hlen
    · omega
    · exact le_refl 1

theorem foldl_max_le (xs : List ℚ) : ∀ (x : ℚ),
    x ≤ xs.foldl max x ∧ ∀ y ∈ xs, y ≤ xs.foldl max x := by
  induction xs with
  | nil =>
    intro x
    refine ⟨le_refl x, ?_⟩
    intro y hy
    simp at hy
  | cons a l ih =>
    intro x
    rw [List.foldl_cons]
    refine ⟨le_trans (le_max_left x a) (ih (max x a)).1, ?_⟩
    intro y hy
    rcases List.mem_cons.mp hy with h | h
    · subst h
      exact le_trans (le_max_right x y) (ih (max x y)).1
    · exact (ih (max x a)).2 y h

theorem maxScoreOf_spec (results : List EntryResult)
    (hs : ∀ r ∈ results, 0 ≤ r.result_score) :
    0 < maxScoreOf results ∧ ∀ r ∈ results, r.result_score ≤ maxScoreOf results := by
  cases results with
  | nil =>
    constructor
    · norm_num [maxScoreOf]
    · intro r hr
      simp at hr
  | cons r0 rest =>
    have hm : maxScoreOf (r0 :: rest) =
        (if (rest.map (fun r => r.result_score)).foldl max r0.result_score = 0 then 1
         else (rest.map (fun r => r.result_score)).foldl max r0.result_score) := rfl
    have hfold := foldl_max_le (rest.map (fun r => r.result_score)) r0.result_score
    have hx0 : 0 ≤ r0.result_score := hs r0 (List.mem_cons_self _ _)
    have hm0 : 0 ≤ (rest.map (fun r => r.result_score)).foldl max r0.result_score :=
      le_trans hx0 hfold.1
    have hall : ∀ r ∈ (r0 :: rest),
        r.result_score ≤ (rest.map (fun r => r.result_score)).foldl max r0.result_score := by
      intro r hr
      rcases List.mem_cons.mp hr with h | h
      · subst h
        exact hfold.1
      · exact hfold.2 _ (List.mem_map_of_mem _ h)
    rw [hm]
    split_ifs with hz
    · refine ⟨by norm_num, ?_⟩
      intro r hr
      have h1 := hall r hr
      have h0 := hs r hr
      rw [hz] at h1
      linarith
    · exact ⟨lt_of_le_of_ne hm0 (Ne.symm hz), hall⟩

theorem initCar_inv (dnfStopOf : String → ℚ) (total : ℚ) (results : List EntryResult)
    (hs : ∀ r ∈ results, 0 ≤ r.result_score) (htotal : 0 ≤ total)
    (r : EntryResult) (hr : r ∈ results) :
    CarInv dnfStopOf total (initCar dnfStopOf (maxScoreOf results) r) := by
  have hms := maxScoreOf_spec results hs
  have htop : (0:ℚ) ≤ TOP_SPEED_FPS := by norm_num [TOP_SPEED_FPS, MPH_TO_FPS]
  have hf0 : (0:ℚ) ≤ max (3/10) (r.result_score / maxScoreOf results) :=
    le_trans (by norm_num) (le_max_left _ _)
  have hf1 : max (3/10) (r.result_score / maxScoreOf results) ≤ 1 := by
    apply max_le
    · norm_num
    · rw [div_le_one hms.1]
      exact hms.2 r hr
  refine ⟨hf0, hf1, le_refl 0, mul_nonneg htop hf0, le_refl 0, htotal, rfl, ?_⟩
  intro h hdnf
  simp [initCar] at h

theorem targetOf_bounds (profile : List ℚ) (nTiles : ℕ) (pos factor : ℚ)
    (hprof : ∀ j, 0 ≤ profile.getD j 0 ∧ profile.getD j 0 ≤ TOP_SPEED_FPS)
    (hf0 : 0 ≤ factor) :
    0 ≤ targetOf profile nTiles pos factor ∧
    targetOf profile nTiles pos factor ≤ TOP_SPEED_FPS * factor := by
  simp only [targetOf]
  constructor
  · exact mul_nonneg (hprof _).1 hf0
  · exact mul_le_mul_of_nonneg_right (hprof _).2 hf0

theorem velStep_bounds {target v M : ℚ} (h0v : 0 ≤ v) (hvM : v ≤ M)
    (h0t : 0 ≤ target) (htM : target ≤ M) :
    0 ≤ velStep target v ∧ velStep target v ≤ M := by
  have hacc : (0:ℚ) ≤ ACCEL_FPS2 * RACE_TICK_DT := by
    norm_num [ACCEL_FPS2, FT_PER_SEC_PER_G, RACE_TICK_DT]
  have hbr : (0:ℚ) ≤ BRAKE_FPS2 * RACE_TICK_DT := by
    norm_num [BRAKE_FPS2, FT_PER_SEC_PER_G, RACE_TICK_DT]
  unfold velStep
  split_ifs with h1 h2
  · exact ⟨le_min h0t (by linarith), min_le_of_left_le htM⟩
  · exact ⟨le_trans h0t (le_max_left _ _), max_le htM (by linarith)⟩
  · exact ⟨h0v, hvM⟩

theorem stepCarF_on_finished (profile : List ℚ) (nTiles : ℕ) (total : ℚ) (tick : ℕ)
    (res : EntryResult) (factor : ℚ) (stop : Option ℚ) (pos vel : ℚ) (k0 : ℕ) (fired : Bool) :
    stepCarF profile nTiles total tick
      { res := res, factor := factor, stop := stop, pos := pos, vel := vel,
        finished := some k0, fired := fired } =
    ({ res := res, factor := factor, stop := stop, pos := pos, vel := vel,
       finished := some k0, fired := fired },
     { car_id := res.player_id, username := res.username,
       progress := roundTo 4 (min 1 (pos / total)),
       speed := roundTo 0 (vel / MPH_TO_FPS),
       incident := if res.dnf then some ("dnf") else none }, false, false) := rfl

theorem stepCarF_on_none (profile : List ℚ) (nTiles : ℕ) (total : ℚ) (tick : ℕ)
    (res : EntryResult) (factor : ℚ) (stop : Option ℚ) (pos vel : ℚ) (fired : Bool) :
    stepCarF profile nTiles total tick
      { res := res, factor := factor, stop := stop, pos := pos, vel := vel,
        finished := none, fired := fired } =
    (if res.dnf = true ∧ stop.isSome = true ∧ (stop.getD 0) * total ≤ pos then
      ({ res := res, factor := factor, stop := stop, pos := pos, vel := 0,
         finished := some tick, fired := true },
       { car_id := res.player_id, username := res.username,
         progress := roundTo 4 (pos / total),
         speed := 0,
         incident := if fired then some ("dnf") else some ("dnf_start") }, false, false)
    else
      ({ res := res, factor := factor, stop := stop,
         pos := if decide (1 ≤ (pos + velStep (targetOf profile nTiles pos factor) vel *
             RACE_TICK_DT) / total) then total
           else pos + velStep (targetOf profile nTiles pos factor) vel * RACE_TICK_DT,
         vel := velStep (targetOf profile nTiles pos factor) vel,
         finished := if decide (1 ≤ (pos + velStep (targetOf profile nTiles pos factor) vel *
             RACE_TICK_DT) / total) then some tick else none,
         fired := fired },
       { car_id := res.player_id, username := res.username,
         progress := roundTo 4 (min 1 ((if decide (1 ≤ (pos +
             velStep (targetOf profile nTiles pos factor) vel * RACE_TICK_DT) / total) then total
           else pos + velStep (targetOf profile nTiles pos factor) vel * RACE_TICK_DT) / total)),
         speed := roundTo 0 (velStep (targetOf profile nTiles pos factor) vel / MPH_TO_FPS),
         incident := none }, true,
       decide (1 ≤ (pos + velStep (targetOf profile nTiles pos factor) vel *
         RACE_TICK_DT) / total) = true)) := rfl
theorem stepCarF_spec (profile : List ℚ) (nTiles : ℕ) (total : ℚ) (tick : ℕ)
    (dnfStopOf : String → ℚ) (c : CarSim)
    (hprof : ∀ j, 0 ≤ profile.getD j 0 ∧ profile.getD j 0 ≤ TOP_SPEED_FPS)
    (htotal : 0 < total) (hinv : CarInv dnfStopOf total c) :
    CarInv dnfStopOf total (stepCarF profile nTiles total tick c).1 ∧
    (stepCarF profile nTiles total tick c).1.res = c.res ∧
    c.pos ≤ (stepCarF profile nTiles total tick c).1.pos ∧
    (c.finished.isSome = true → (stepCarF profile nTiles total tick c).1 = c) ∧
    (stepCarF profile nTiles total tick c).2.1.car_id = c.res.player_id ∧
    (stepCarF profile nTiles total tick c).2.1.progress =
      roundTo 4 (min 1 ((stepCarF profile nTiles total tick c).1.pos / total)) ∧
    ((stepCarF profile nTiles total tick c).2.1.incident = some ("dnf_start") →
      dnfStopOf c.res.player_id * total ≤ (stepCarF profile nTiles total tick c).1.pos ∧
      (stepCarF profile nTiles total tick c).1.finished.isSome = true) := by
  have htop : (0:ℚ) ≤ TOP_SPEED_FPS := by norm_num [TOP_SPEED_FPS, MPH_TO_FPS]
  have hdt : (0:ℚ) ≤ RACE_TICK_DT := by norm_num [RACE_TICK_DT]
  obtain ⟨hf0, hf1, hv0, hvM, hp0, hpT, hstop, hfin8⟩ := hinv
  obtain ⟨res, factor, stop, pos, vel, fin, fired⟩ := c
  dsimp only at hf0 hf1 hv0 hvM hp0 hpT hstop hfin8
  cases fin with
  | some k0 =>
    rw [stepCarF_on_finished]
    refine ⟨⟨hf0, hf1, hv0, hvM, hp0, hpT, hstop, hfin8⟩, rfl, le_refl _, fun _ => rfl, rfl,
      rfl, ?_⟩
    intro h
    exfalso
    by_cases hd : res.dnf <;> simp [hd] at h
  | none =>
    rw [stepCarF_on_none]
    by_cases hfr : res.dnf = true ∧ stop.isSome = true ∧ (stop.getD 0) * total ≤ pos
    · rw [if_pos hfr]
      have hdivle : pos / total ≤ 1 := (div_le_one htotal).mpr hpT
      refine ⟨⟨hf0, hf1, le_refl 0, mul_nonneg htop hf0, hp0, hpT, hstop,
        (by intro h hdnf; simp [hfr.1] at hdnf)⟩, rfl, le_refl _, ?_, rfl, ?_, ?_⟩
      · intro h
        simp at h
      · rw [min_eq_right hdivle]
      · intro h
        rcases hfr with ⟨hd, hsome, hle⟩
        rw [hd] at hstop
        rw [if_pos rfl] at hstop
        rw [hstop] at hle
        simp only [Option.getD_some] at hle
        exact ⟨hle, rfl⟩
    · rw [if_neg hfr]
      have htb := targetOf_bounds profile nTiles pos factor hprof hf0
      have hvb := velStep_bounds hv0 hvM htb.1 htb.2
      have hgain : 0 ≤ velStep (targetOf profile nTiles pos factor) vel * RACE_TICK_DT :=
        mul_nonneg hvb.1 hdt
      by_cases hF : 1 ≤ (pos + velStep (targetOf profile nTiles pos factor) vel *
          RACE_TICK_DT) / total
      · simp only [decide_eq_true_eq, if_pos hF]
        refine ⟨⟨hf0, hf1, hvb.1, hvb.2, le_of_lt htotal, le_refl total, hstop,
          fun _ _ => rfl⟩, trivial, hpT, ?_, trivial, trivial, ?_⟩
        · intro h
          simp at h
        · intro h
          simp at h
      · simp only [decide_eq_true_eq, if_neg hF]
        have hposlt : pos + velStep (targetOf profile nTiles pos factor) vel *
            RACE_TICK_DT ≤ total := by
          have h1 : (pos + velStep (targetOf profile nTiles pos factor) vel *
              RACE_TICK_DT) / total < 1 := lt_of_not_le hF
          have h2 := (div_lt_one htotal).mp h1
          exact le_of_lt h2
        have hpos0 : 0 ≤ pos + velStep (targetOf profile nTiles pos factor) vel *
            RACE_TICK_DT := by linarith
        have hposle : pos ≤ pos + velStep (targetOf profile nTiles pos factor) vel *
            RACE_TICK_DT := by linarith
        refine ⟨⟨hf0, hf1, hvb.1, hvb.2, hpos0, hposlt, hstop,
          (by intro h hdnf; simp at h)⟩, trivial, hposle, ?_, trivial, trivial, ?_⟩
        · intro h
          simp at h
        · intro h
          simp at h

theorem stepTick_cars2 (profile : List ℚ) (nTiles : ℕ) (total : ℚ) (lapCount tick : ℕ)
    (st : TSState) :
    (stepTick profile nTiles total lapCount tick st).2.1.cars =
      st.cars.map (fun c => (stepCarF profile nTiles total tick c).1) := by
  show ((st.cars.map (stepCarF profile nTiles total tick)).map (fun q => q.1)) = _
  rw [List.map_map]
  rfl

theorem stepTick_emit (profile : List ℚ) (nTiles : ℕ) (total : ℚ) (lapCount tick : ℕ)
    (st : TSState) :
    (stepTick profile nTiles total lapCount tick st).1.cars =
      st.cars.map (fun c => (stepCarF profile nTiles total tick c).2.1) := by
  show ((st.cars.map (stepCarF profile nTiles total tick)).map (fun q => q.2.1)) = _
  rw [List.map_map]
  rfl

theorem getD_map_of_lt {α β : Type} (f : α → β) (l : List α) (dA : α) (dB : β) {i : ℕ}
    (hi : i < l.length) : (l.map f).getD i dB = f (l.getD i dA) := by
  rw [List.getD_eq_getElem _ _ (by simpa using hi), List.getElem_map,
    List.getD_eq_getElem _ _ hi]

theorem runTicksAux_succ (profile : List ℚ) (nTiles : ℕ) (total : ℚ)
    (lapCount fuel tick : ℕ) (st : TSState) :
    runTicksAux profile nTiles total lapCount (fuel + 1) tick st =
      ((stepTick profile nTiles total lapCount (tick + 1) st).1,
       (stepTick profile nTiles total lapCount (tick + 1) st).2.1) ::
        (if (stepTick profile nTiles total lapCount (tick + 1) st).2.2 then []
         else runTicksAux profile nTiles total lapCount fuel (tick + 1)
           (stepTick profile nTiles total lapCount (tick + 1) st).2.1) := rfl

theorem runTicksAux_step (profile : List ℚ) (nTiles : ℕ) (total : ℚ)
    (lapCount fuel tick : ℕ) (st st2 : TSState) (flag : Bool)
    (h : (stepTick profile nTiles total lapCount (tick + 1) st).2 = (st2, flag)) :
    runTicksAux profile nTiles total lapCount (fuel + 1) tick st =
      ((stepTick profile nTiles total lapCount (tick + 1) st).1, st2) ::
        (if flag = true then []
         else runTicksAux profile nTiles total lapCount fuel (tick + 1) st2) := by
  have h1 : (stepTick profile nTiles total lapCount (tick + 1) st).2.1 = st2 := by rw [h]
  have h2 : (stepTick profile nTiles total lapCount (tick + 1) st).2.2 = flag := by rw [h]
  rw [runTicksAux_succ, h1, h2]

theorem runTicksAux_length_le (profile : List ℚ) (nTiles : ℕ) (total : ℚ) (lapCount : ℕ) :
    ∀ (fuel tick : ℕ) (st : TSState),
      (runTicksAux profile nTiles total lapCount fuel tick st).length ≤ fuel := by
  intro fuel
  induction fuel with
  | zero => intro tick st; exact le_refl 0
  | succ fuel ih =>
    intro tick st
    rw [runTicksAux_succ, List.length_cons]
    by_cases h : (stepTick profile nTiles total lapCount (tick + 1) st).2.2
    · rw [if_pos h]
      simp
    · rw [if_neg h]
      have h2 := ih (tick + 1) (stepTick profile nTiles total lapCount (tick + 1) st).2.1
      omega

theorem runTicksAux_trace (profile : List ℚ) (nTiles : ℕ) (total : ℚ) (lapCount : ℕ)
    (dnfStopOf : String → ℚ)
    (hprof : ∀ j, 0 ≤ profile.getD j 0 ∧ profile.getD j 0 ≤ TOP_SPEED_FPS)
    (htotal : 0 < total) :
    ∀ (fuel tick : ℕ) (st : TSState), (∀ c ∈ st.cars, CarInv dnfStopOf total c) →
      ∀ k, k < (runTicksAux profile nTiles total lapCount fuel tick st).length →
        (∀ c ∈ ((runTicksAux profile nTiles total lapCount fuel tick st).getD k
            default).2.cars, CarInv dnfStopOf total c) ∧
        (if k = 0 then st
          else ((runTicksAux profile nTiles total lapCount fuel tick st).getD (k - 1)
            default).2).cars.length = st.cars.length ∧
        (∀ c ∈ (if k = 0 then st
          else ((runTicksAux profile nTiles total lapCount fuel tick st).getD (k - 1)
            default).2).cars, CarInv dnfStopOf total c) ∧
        ((runTicksAux profile nTiles total lapCount fuel tick st).getD k default).2.cars =
          (if k = 0 then st
            else ((runTicksAux profile nTiles total lapCount fuel tick st).getD (k - 1)
              default).2).cars.map (fun c => (stepCarF profile nTiles total (tick + k + 1) c).1) ∧
        ((runTicksAux profile nTiles total lapCount fuel tick st).getD k default).1.cars =
          (if k = 0 then st
            else ((runTicksAux profile nTiles total lapCount fuel tick st).getD (k - 1)
              default).2).cars.map
            (fun c => (stepCarF profile nTiles total (tick + k + 1) c).2.1) := by
  intro fuel
  induction fuel with
  | zero =>
    intro tick st hinv k hk
    simp [runTicksAux] at hk
  | succ fuel ih =>
    intro tick st hinv k hk
    have hinv1 : ∀ c ∈ (stepTick profile nTiles total lapCount (tick + 1) st).2.1.cars,
        CarInv dnfStopOf total c := by
      intro c hc
      rw [stepTick_cars2] at hc
      rcases List.mem_map.mp hc with ⟨c0, hc0, rfl⟩
      exact (stepCarF_spec profile nTiles total (tick + 1) dnfStopOf c0 hprof htotal
        (hinv c0 hc0)).1
    have hlen1 : (stepTick profile nTiles total lapCount (tick + 1) st).2.1.cars.length =
        st.cars.length := by
      rw [stepTick_cars2, List.length_map]
    cases k with
    | zero =>
      rw [runTicksAux_succ]
      exact ⟨hinv1, rfl, hinv,
        stepTick_cars2 profile nTiles total lapCount (tick + 1) st,
        stepTick_emit profile nTiles total lapCount (tick + 1) st⟩
    | succ m =>
      rw [runTicksAux_succ] at hk ⊢
      by_cases hstop2 : (stepTick profile nTiles total lapCount (tick + 1) st).2.2
      · rw [if_pos hstop2] at hk ⊢
        simp at hk
      · rw [if_neg hstop2] at hk ⊢
        have hm : m < (runTicksAux profile nTiles total lapCount fuel (tick + 1)
            (stepTick profile nTiles total lapCount (tick + 1) st).2.1).length := by
          rw [List.length_cons] at hk
          omega
        have H := ih (tick + 1) (stepTick profile nTiles total lapCount (tick + 1) st).2.1
          hinv1 m hm
        cases m with
        | zero =>
          have harith : tick + 1 + 0 + 1 = tick + (0 + 1) + 1 := by omega
          rw [harith] at H
          exact ⟨H.1, H.2.1.trans hlen1, H.2.2.1, H.2.2.2.1, H.2.2.2.2⟩
        | succ m2 =>
          have harith : tick + 1 + (m2 + 1) + 1 = tick + (m2 + 1 + 1) + 1 := by omega
          rw [harith] at H
          exact ⟨H.1, H.2.1.trans hlen1, H.2.2.1, H.2.2.2.1, H.2.2.2.2⟩

theorem mono_chain {f : ℕ → ℚ} {L : ℕ} (h : ∀ k, k + 1 < L → f k ≤ f (k + 1)) :
    ∀ k k2, k ≤ k2 → k2 < L → f k ≤ f k2 := by
  intro k k2
  induction k2 with
  | zero =>
    intro hle hlt
    have hk0 : k = 0 := by omega
    subst hk0
    exact le_refl _
  | succ n ihn =>
    intro hle hlt
    rcases Nat.eq_or_lt_of_le hle with heq | hlt2
    · subst heq
      exact le_refl _
    · have h1 : k ≤ n := by omega
      have h2 : n < L := by omega
      exact le_trans (ihn h1 h2) (h n hlt)
/-- Claim C7 (amended): every generated tick stream stays within the
200000-tick safety cap, and for each entrant the reported progress is
non-decreasing from tick to tick, never exceeds 1, and once it equals 1
it remains 1; a finisher (a non-DNF car once its finished flag is set)
reports progress exactly 1 from its finish tick on, because the finish
branch clamps the position to the total distance; when the one-time
dnf_start incident fires, the reported progress is at least the rounded
pre-assigned stop fraction (the car freezes at its first tick position
at or beyond the stop distance, in general strictly past it rather than
exactly at it) and the reported progress never changes afterwards. -/
theorem generate_tick_stream_progress (sq : ℚ → ℚ) (dnfStopOf : String → ℚ)
    (results : List EntryResult) (lapCount : ℕ) (track : Option TrackData)
    (hsq : ∀ x, 0 ≤ sq x) (hlap : 1 ≤ lapCount)
    (hscores : ∀ r ∈ results, 0 ≤ r.result_score) :
    (generate_tick_stream sq dnfStopOf results lapCount track).length ≤ MAX_TICKS ∧
    (∀ i, i < results.length →
      (∀ k k2, k ≤ k2 →
        k2 < (generate_tick_stream sq dnfStopOf results lapCount track).length →
        (((generate_tick_stream sq dnfStopOf results lapCount track).getD k
            default).cars.getD i default).progress ≤
          (((generate_tick_stream sq dnfStopOf results lapCount track).getD k2
            default).cars.getD i default).progress) ∧
      (∀ k, k < (generate_tick_stream sq dnfStopOf results lapCount track).length →
        (((generate_tick_stream sq dnfStopOf results lapCount track).getD k
            default).cars.getD i default).progress ≤ 1) ∧
      (∀ k k2, k ≤ k2 →
        k2 < (generate_tick_stream sq dnfStopOf results lapCount track).length →
        (((generate_tick_stream sq dnfStopOf results lapCount track).getD k
            default).cars.getD i default).progress = 1 →
        (((generate_tick_stream sq dnfStopOf results lapCount track).getD k2
            default).cars.getD i default).progress = 1) ∧
      (∀ k, k < (generate_tick_stream sq dnfStopOf results lapCount track).length →
        (((generate_tick_stream sq dnfStopOf results lapCount track).getD k
            default).cars.getD i default).incident = some ("dnf_start") →
        roundTo 4 (dnfStopOf (((generate_tick_stream sq dnfStopOf results lapCount
            track).getD k default).cars.getD i default).car_id) ≤
          (((generate_tick_stream sq dnfStopOf results lapCount track).getD k
            default).cars.getD i default).progress ∧
        (∀ k2, k ≤ k2 →
          k2 < (generate_tick_stream sq dnfStopOf results lapCount track).length →
          (((generate_tick_stream sq dnfStopOf results lapCount track).getD k2
              default).cars.getD i default).progress =
            (((generate_tick_stream sq dnfStopOf results lapCount track).getD k
              default).cars.getD i default).progress)) ∧
      (∀ k, k < (generate_tick_stream sq dnfStopOf results lapCount track).length →
        (((runTicksAux (profileOf sq track).1 (profileOf sq track).2
            (totalDistanceOf (profileOf sq track).2 lapCount) lapCount MAX_TICKS 0
            { cars := results.map (initCar dnfStopOf (maxScoreOf results)),
              leader := none }).getD k default).2.cars.getD i
          default).finished.isSome = true →
        (((runTicksAux (profileOf sq track).1 (profileOf sq track).2
            (totalDistanceOf (profileOf sq track).2 lapCount) lapCount MAX_TICKS 0
            { cars := results.map (initCar dnfStopOf (maxScoreOf results)),
              leader := none }).getD k default).2.cars.getD i
          default).res.dnf = false →
        (((generate_tick_stream sq dnfStopOf results lapCount track).getD k
            default).cars.getD i default).progress = 1)) := by
  by_cases hres : results.isEmpty = true
  · have hts : generate_tick_stream sq dnfStopOf results lapCount track = [] := by
      unfold generate_tick_stream
      rw [if_pos hres]
    rw [hts]
    constructor
    · simp [MAX_TICKS]
    · intro i hi
      refine ⟨?_, ?_, ?_, ?_, ?_⟩
      · intro k k2 hle hk2
        simp at hk2
      · intro k hk
        simp at hk
      · intro k k2 hle hk2
        simp at hk2
      · intro k hk
        simp at hk
      · intro k hk
        simp at hk
  · set P := (profileOf sq track).1 with hP
    set N := (profileOf sq track).2 with hN
    set T := totalDistanceOf N lapCount with hT2
    set m := maxScoreOf results with hm
    set st0 : TSState := { cars := results.map (initCar dnfStopOf m), leader := none } with hst0
    set ps := runTicksAux P N T lapCount MAX_TICKS 0 st0 with hps
    have hts : generate_tick_stream sq dnfStopOf results lapCount track =
        ps.map (fun q => q.1) := by
      rw [hps, hP, hN, hT2, hst0, hm]
      unfold generate_tick_stream
      rw [if_neg hres]
    have hNpos : 1 ≤ N := by
      rw [hN]
      exact profileOf_snd_pos sq track
    have htotal : 0 < T := by
      rw [hT2]
      unfold totalDistanceOf
      have h1 : (0:ℚ) < (N:ℚ) := by exact_mod_cast lt_of_lt_of_le Nat.zero_lt_one hNpos
      have h2 : (0:ℚ) < (lapCount:ℚ) := by exact_mod_cast lt_of_lt_of_le Nat.zero_lt_one hlap
      have h3 : (0:ℚ) < TILE_FEET := by norm_num [TILE_FEET]
      exact mul_pos (mul_pos h3 h1) h2
    have hprofB : ∀ j, 0 ≤ P.getD j 0 ∧ P.getD j 0 ≤ TOP_SPEED_FPS := by
      rw [hP]
      exact profileOf_fst_bounds sq track hsq
    have hinv0 : ∀ c ∈ st0.cars, CarInv dnfStopOf T c := by
      rw [hst0]
      intro c hc
      rcases List.mem_map.mp hc with ⟨r, hrmem, rfl⟩
      rw [hm]
      exact initCar_inv dnfStopOf T results hscores (le_of_lt htotal) r hrmem
    have htrace := runTicksAux_trace P N T lapCount dnfStopOf hprofB htotal MAX_TICKS 0 st0 hinv0
    have hcars0 : st0.cars.length = results.length := by
      rw [hst0]
      exact List.length_map _ _
    have hlen : (generate_tick_stream sq dnfStopOf results lapCount track).length =
        ps.length := by
      rw [hts, List.length_map]
    have hbound : (generate_tick_stream sq dnfStopOf results lapCount track).length ≤
        MAX_TICKS := by
      rw [hlen, hps]
      exact runTicksAux_length_le P N T lapCount MAX_TICKS 0 st0
    have hkey : ∀ k, k < ps.length → ∀ i, i < results.length →
        CarInv dnfStopOf T ((if k = 0 then st0 else (ps.getD (k-1) default).2).cars.getD i
          default) ∧
        (ps.getD k default).2.cars.getD i default =
          (stepCarF P N T (k + 1) ((if k = 0 then st0
            else (ps.getD (k-1) default).2).cars.getD i default)).1 ∧
        (ps.getD k default).1.cars.getD i default =
          (stepCarF P N T (k + 1) ((if k = 0 then st0
            else (ps.getD (k-1) default).2).cars.getD i default)).2.1 ∧
        CarInv dnfStopOf T ((ps.getD k default).2.cars.getD i default) := by
      intro k hk i hi
      obtain ⟨Hcur, Hlen, Hprev, Hcars, Hemit⟩ := htrace k hk
      have harith : 0 + k + 1 = k + 1 := by omega
      rw [← hps] at Hcur Hlen Hprev Hcars Hemit
      rw [harith] at Hcars Hemit
      have hilt : i < (if k = 0 then st0 else (ps.getD (k-1) default).2).cars.length := by
        rw [Hlen, hcars0]
        exact hi
      refine ⟨?_, ?_, ?_, ?_⟩
      · apply Hprev
        rw [List.getD_eq_getElem _ _ hilt]
        exact List.getElem_mem _
      · rw [Hcars]
        exact getD_map_of_lt _ _ default default hilt
      · rw [Hemit]
        exact getD_map_of_lt _ _ default default hilt
      · apply Hcur
        have hilt2 : i < (ps.getD k default).2.cars.length := by
          rw [Hcars, List.length_map]
          exact hilt
        rw [List.getD_eq_getElem _ _ hilt2]
        exact List.getElem_mem _
    have hstep : ∀ k, k < ps.length → ∀ i, i < results.length →
        ((ps.getD k default).1.cars.getD i default).progress =
          roundTo 4 (min 1 (((ps.getD k default).2.cars.getD i default).pos / T)) ∧
        ((ps.getD k default).1.cars.getD i default).car_id =
          ((ps.getD k default).2.cars.getD i default).res.player_id ∧
        (((ps.getD k default).1.cars.getD i default).incident = some ("dnf_start") →
          dnfStopOf (((ps.getD k default).2.cars.getD i default).res.player_id) * T ≤
            ((ps.getD k default).2.cars.getD i default).pos ∧
          ((ps.getD k default).2.cars.getD i default).finished.isSome = true) := by
      intro k hk i hi
      obtain ⟨Hinvprev, Hc, He, Hinvcur⟩ := hkey k hk i hi
      have spec := stepCarF_spec P N T (k + 1) dnfStopOf _ hprofB htotal Hinvprev
      refine ⟨?_, ?_, ?_⟩
      · rw [He, Hc]
        exact spec.2.2.2.2.2.1
      · rw [He, Hc, spec.2.1]
        exact spec.2.2.2.2.1
      · intro hinc
        rw [He] at hinc
        have hfact := spec.2.2.2.2.2.2 hinc
        rw [Hc, spec.2.1]
        exact hfact
    have hnext : ∀ k, k + 1 < ps.length → ∀ i, i < results.length →
        ((ps.getD k default).2.cars.getD i default).pos ≤
          ((ps.getD (k+1) default).2.cars.getD i default).pos ∧
        (((ps.getD k default).2.cars.getD i default).finished.isSome = true →
          (ps.getD (k+1) default).2.cars.getD i default =
            (ps.getD k default).2.cars.getD i default) := by
      intro k hk1 i hi
      have hkk : k < ps.length := by omega
      obtain ⟨Hinvprev1, Hc1, He1, Hinvcur1⟩ := hkey (k+1) hk1 i hi
      rw [if_neg (show ¬(k + 1 = 0) by omega)] at Hc1
      rw [Nat.add_sub_cancel] at Hc1
      have Hinvk := (hkey k hkk i hi).2.2.2
      have spec := stepCarF_spec P N T (k + 1 + 1) dnfStopOf
        ((ps.getD k default).2.cars.getD i default) hprofB htotal Hinvk
      constructor
      · rw [Hc1]
        exact spec.2.2.1
      · intro hfin
        rw [Hc1]
        exact spec.2.2.2.1 hfin
    have hemit : ∀ k, k < ps.length →
        (generate_tick_stream sq dnfStopOf results lapCount track).getD k default =
          (ps.getD k default).1 := by
      intro k hk
      rw [hts]
      exact getD_map_of_lt _ ps default default hk
    refine ⟨hbound, ?_⟩
    intro i hi
    have hmono1 : ∀ k, k + 1 < ps.length →
        (((ps.getD k default).1).cars.getD i default).progress ≤
          (((ps.getD (k+1) default).1).cars.getD i default).progress := by
      intro k hk1
      have hkk : k < ps.length := by omega
      have hs1 := hstep k hkk i hi
      have hs2 := hstep (k+1) hk1 i hi
      have hn := hnext k hk1 i hi
      rw [hs1.1, hs2.1]
      apply roundTo_mono
      apply min_le_min (le_refl 1)
      rw [div_le_div_iff₀ htotal htotal]
      exact mul_le_mul_of_nonneg_right hn.1 (le_of_lt htotal)
    have hmono : ∀ k k2, k ≤ k2 → k2 < ps.length →
        (((ps.getD k default).1).cars.getD i default).progress ≤
          (((ps.getD k2 default).1).cars.getD i default).progress :=
      @mono_chain (fun k => (((ps.getD k default).1).cars.getD i default).progress)
        ps.length hmono1
    have hle1 : ∀ k, k < ps.length →
        (((ps.getD k default).1).cars.getD i default).progress ≤ 1 := by
      intro k hk
      rw [(hstep k hk i hi).1]
      have h1 : min 1 (((ps.getD k default).2.cars.getD i default).pos / T) ≤ 1 :=
        min_le_left _ _
      have h2 := roundTo_mono 4 h1
      rw [roundTo_one] at h2
      exact h2
    refine ⟨?_, ?_, ?_, ?_, ?_⟩
    · intro k k2 hle hk2
      rw [hlen] at hk2
      have hkk : k < ps.length := by omega
      rw [hemit k hkk, hemit k2 hk2]
      exact hmono k k2 hle hk2
    · intro k hk
      rw [hlen] at hk
      rw [hemit k hk]
      exact hle1 k hk
    · intro k k2 hle hk2 hp1
      rw [hlen] at hk2
      have hkk : k < ps.length := by omega
      rw [hemit k hkk] at hp1
      rw [hemit k2 hk2]
      have hge := hmono k k2 hle hk2
      rw [hp1] at hge
      exact le_antisymm (hle1 k2 hk2) hge
    · intro k hk hinc
      rw [hlen] at hk
      rw [hemit k hk] at hinc ⊢
      obtain ⟨hs1, hs2, hs3⟩ := hstep k hk i hi
      have hfact := hs3 hinc
      have hfreeze : ∀ d, k + d < ps.length →
          (ps.getD (k + d) default).2.cars.getD i default =
            (ps.getD k default).2.cars.getD i default := by
        intro d
        induction d with
        | zero => intro h0; rfl
        | succ d ihd =>
          intro hkd
          have hd3 : k + d + 1 < ps.length := by
            have he : k + (d+1) = k + d + 1 := by omega
            rw [he] at hkd
            exact hkd
          have hd2 : k + d < ps.length := by omega
          have hn := hnext (k + d) hd3 i hi
          have hconst := hn.2 (by rw [ihd hd2]; exact hfact.2)
          have he2 : k + (d + 1) = k + d + 1 := by omega
          rw [he2, hconst, ihd hd2]
      constructor
      · rw [hs1, hs2]
        have hcarinv := (hkey k hk i hi).2.2.2
        obtain ⟨_, _, _, _, _, hposT, _, _⟩ := hcarinv
        have hdiv1 : ((ps.getD k default).2.cars.getD i default).pos / T ≤ 1 :=
          (div_le_one htotal).mpr hposT
        rw [min_eq_right hdiv1]
        apply roundTo_mono
        exact (le_div_iff₀ htotal).mpr hfact.1
      · intro k2 hle2 hk22
        rw [hlen] at hk22
        rw [hemit k2 hk22]
        have hd : k2 = k + (k2 - k) := by omega
        have h5 := hfreeze (k2 - k) (by omega)
        rw [← hd] at h5
        rw [(hstep k2 hk22 i hi).1, (hstep k hk i hi).1, h5]
    · intro k hk hfin hdnf
      rw [hlen] at hk
      rw [hemit k hk]
      have hcarinv := (hkey k hk i hi).2.2.2
      obtain ⟨_, _, _, _, _, _, _, hfin8⟩ := hcarinv
      have hpos : ((ps.getD k default).2.cars.getD i default).pos = T := hfin8 hfin hdnf
      rw [(hstep k hk i hi).1, hpos, div_self (ne_of_gt htotal), min_self]
      exact roundTo_one 4
/-- Claim C7 witness: the amended statement applied to the singleton DNF
outcome with a nonnegative square-root oracle, two laps, no track, and
the oracle stop fraction 3/10; the cap bound conjunct is extracted. -/
theorem generate_tick_stream_progress_witness :
    (∀ x : ℚ, 0 ≤ (fun _ : ℚ => (0:ℚ)) x) ∧ (1 ≤ 2) ∧
    (∀ r ∈ [dnfResX], 0 ≤ r.result_score) ∧
    (generate_tick_stream (fun _ => 0) (fun _ => 3/10) [dnfResX] 2 none).length ≤
      MAX_TICKS := by
  have h1 : ∀ x : ℚ, 0 ≤ (fun _ : ℚ => (0:ℚ)) x := fun x => le_refl 0
  have h2 : (1:ℕ) ≤ 2 := by norm_num
  have h3 : ∀ r ∈ [dnfResX], 0 ≤ r.result_score := by
    intro r hr
    have hr2 := List.mem_singleton.mp hr
    subst hr2
    norm_num [dnfResX]
  exact ⟨h1, h2, h3, (generate_tick_stream_progress (fun _ => 0) (fun _ => 3/10)
    [dnfResX] 2 none h1 h2 h3).1⟩

/-- Claim C7 counterexample: a single DNF entrant with stop fraction 3/10,
one lap, no track. The car freezes at tick 18 at the first position at or
beyond the 9-foot stop distance (about 9.4613 ft of 30 ft), so the terminal
reported progress of the stream is 0.3154, not the pre-assigned stop
fraction 0.3 claimed by the specification. -/
theorem generate_tick_stream_dnf_overshoot :
    dnfResX.dnf = true ∧
    (generate_tick_stream (fun x => x) (fun _ => 3/10) [dnfResX] 1 none).length = 18 ∧
    ((generate_tick_stream (fun x => x) (fun _ => 3/10) [dnfResX] 1 none).getD 17
      default).cars =
      [{ car_id := "pD", username := "D", progress := 1577/5000, speed := 0, incident := some ("dnf_start") }] ∧
    ¬ ((1577/5000 : ℚ) = 3/10) := by
  have e1 : (stepTick ([TOP_SPEED_FPS]) 1 30 1 1
      { cars := [{ res := dnfResX, factor := 3/10, stop := some (3/10), pos := 0, vel := 0, finished := none, fired := false }], leader := none }).2 =
      ({ cars := [{ res := dnfResX, factor := 3/10, stop := some (3/10), pos := 15459607/250000000, vel := 498697/500000, finished := none, fired := false }], leader := none }, false) := by
    norm_num [stepTick, stepCarF, velStep, targetOf, dnfResX, TOP_SPEED_FPS, MPH_TO_FPS,
    TILE_FEET, ACCEL_FPS2, BRAKE_FPS2, FT_PER_SEC_PER_G, RACE_TICK_DT, min_def, max_def]
  have e2 : (stepTick ([TOP_SPEED_FPS]) 1 30 1 2
      { cars := [{ res := dnfResX, factor := 3/10, stop := some (3/10), pos := 15459607/250000000, vel := 498697/500000, finished := none, fired := false }], leader := none }).2 =
      ({ cars := [{ res := dnfResX, factor := 3/10, stop := some (3/10), pos := 46378821/250000000, vel := 498697/250000, finished := none, fired := false }], leader := none }, false) := by
    norm_num [stepTick, stepCarF, velStep, targetOf, dnfResX, TOP_SPEED_FPS, MPH_TO_FPS,
    TILE_FEET, ACCEL_FPS2, BRAKE_FPS2, FT_PER_SEC_PER_G, RACE_TICK_DT, min_def, max_def]
  have e3 : (stepTick ([TOP_SPEED_FPS]) 1 30 1 3
      { cars := [{ res := dnfResX, factor := 3/10, stop := some (3/10), pos := 46378821/250000000, vel := 498697/250000, finished := none, fired := false }], leader := none }).2 =
      ({ cars := [{ res := dnfResX, factor := 3/10, stop := some (3/10), pos := 46378821/125000000, vel := 1496091/500000, finished := none, fired := false }], leader := none }, false) := by
    norm_num [stepTick, stepCarF, velStep, targetOf, dnfResX, TOP_SPEED_FPS, MPH_TO_FPS,
    TILE_FEET, ACCEL_FPS2, BRAKE_FPS2, FT_PER_SEC_PER_G, RACE_TICK_DT, min_def, max_def]
  have e4 : (stepTick ([TOP_SPEED_FPS]) 1 30 1 4
      { cars := [{ res := dnfResX, factor := 3/10, stop := some (3/10), pos := 46378821/125000000, vel := 1496091/500000, finished := none, fired := false }], leader := none }).2 =
      ({ cars := [{ res := dnfResX, factor := 3/10, stop := some (3/10), pos := 15459607/25000000, vel := 498697/125000, finished := none, fired := false }], leader := none }, false) := by
    norm_num [stepTick, stepCarF, velStep, targetOf, dnfResX, TOP_SPEED_FPS, MPH_TO_FPS,
    TILE_FEET, ACCEL_FPS2, BRAKE_FPS2, FT_PER_SEC_PER_G, RACE_TICK_DT, min_def, max_def]
  have e5 : (stepTick ([TOP_SPEED_FPS]) 1 30 1 5
      { cars := [{ res := dnfResX, factor := 3/10, stop := some (3/10), pos := 15459607/25000000, vel := 498697/125000, finished := none, fired := false }], leader := none }).2 =
      ({ cars := [{ res := dnfResX, factor := 3/10, stop := some (3/10), pos := 46378821/50000000, vel := 498697/100000, finished := none, fired := false }], leader := none }, false) := by
    norm_num [stepTick, stepCarF, velStep, targetOf, dnfResX, TOP_SPEED_FPS, MPH_TO_FPS,
    TILE_FEET, ACCEL_FPS2, BRAKE_FPS2, FT_PER_SEC_PER_G, RACE_TICK_DT, min_def, max_def]
  have e6 : (stepTick ([TOP_SPEED_FPS]) 1 30 1 6
      { cars := [{ res := dnfResX, factor := 3/10, stop := some (3/10), pos := 46378821/50000000, vel := 498697/100000, finished := none, fired := false }], leader := none }).2 =
      ({ cars := [{ res := dnfResX, factor := 3/10, stop := some (3/10), pos := 324651747/250000000, vel := 1496091/250000, finished := none, fired := false }], leader := none }, false) := by
    norm_num [stepTick, stepCarF, velStep, targetOf, dnfResX, TOP_SPEED_FPS, MPH_TO_FPS,
    TILE_FEET, ACCEL_FPS2, BRAKE_FPS2, FT_PER_SEC_PER_G, RACE_TICK_DT, min_def, max_def]
  have e7 : (stepTick ([TOP_SPEED_FPS]) 1 30 1 7
      { cars := [{ res := dnfResX, factor := 3/10, stop := some (3/10), pos := 324651747/250000000, vel := 1496091/250000, finished := none, fired := false }], leader := none }).2 =
      ({ cars := [{ res := dnfResX, factor := 3/10, stop := some (3/10), pos := 108217249/62500000, vel := 3490879/500000, finished := none, fired := false }], leader := none }, false) := by
    norm_num [stepTick, stepCarF, velStep, targetOf, dnfResX, TOP_SPEED_FPS, MPH_TO_FPS,
    TILE_FEET, ACCEL_FPS2, BRAKE_FPS2, FT_PER_SEC_PER_G, RACE_TICK_DT, min_def, max_def]
  have e8 : (stepTick ([TOP_SPEED_FPS]) 1 30 1 8
      { cars := [{ res := dnfResX, factor := 3/10, stop := some (3/10), pos := 108217249/62500000, vel := 3490879/500000, finished := none, fired := false }], leader := none }).2 =
      ({ cars := [{ res := dnfResX, factor := 3/10, stop := some (3/10), pos := 139136463/62500000, vel := 498697/62500, finished := none, fired := false }], leader := none }, false) := by
    norm_num [stepTick, stepCarF, velStep, targetOf, dnfResX, TOP_SPEED_FPS, MPH_TO_FPS,
    TILE_FEET, ACCEL_FPS2, BRAKE_FPS2, FT_PER_SEC_PER_G, RACE_TICK_DT, min_def, max_def]
  have e9 : (stepTick ([TOP_SPEED_FPS]) 1 30 1 9
      { cars := [{ res := dnfResX, factor := 3/10, stop := some (3/10), pos := 139136463/62500000, vel := 498697/62500, finished := none, fired := false }], leader := none }).2 =
      ({ cars := [{ res := dnfResX, factor := 3/10, stop := some (3/10), pos := 139136463/50000000, vel := 4488273/500000, finished := none, fired := false }], leader := none }, false) := by
    norm_num [stepTick, stepCarF, velStep, targetOf, dnfResX, TOP_SPEED_FPS, MPH_TO_FPS,
    TILE_FEET, ACCEL_FPS2, BRAKE_FPS2, FT_PER_SEC_PER_G, RACE_TICK_DT, min_def, max_def]
  have e10 : (stepTick ([TOP_SPEED_FPS]) 1 30 1 10
      { cars := [{ res := dnfResX, factor := 3/10, stop := some (3/10), pos := 139136463/50000000, vel := 4488273/500000, finished := none, fired := false }], leader := none }).2 =
      ({ cars := [{ res := dnfResX, factor := 3/10, stop := some (3/10), pos := 170055677/50000000, vel := 498697/50000, finished := none, fired := false }], leader := none }, false) := by
    norm_num [stepTick, stepCarF, velStep, targetOf, dnfResX, TOP_SPEED_FPS, MPH_TO_FPS,
    TILE_FEET, ACCEL_FPS2, BRAKE_FPS2, FT_PER_SEC_PER_G, RACE_TICK_DT, min_def, max_def]
  have e11 : (stepTick ([TOP_SPEED_FPS]) 1 30 1 11
      { cars := [{ res := dnfResX, factor := 3/10, stop := some (3/10), pos := 170055677/50000000, vel := 498697/50000, finished := none, fired := false }], leader := none }).2 =
      ({ cars := [{ res := dnfResX, factor := 3/10, stop := some (3/10), pos := 510167031/125000000, vel := 5485667/500000, finished := none, fired := false }], leader := none }, false) := by
    norm_num [stepTick, stepCarF, velStep, targetOf, dnfResX, TOP_SPEED_FPS, MPH_TO_FPS,
    TILE_FEET, ACCEL_FPS2, BRAKE_FPS2, FT_PER_SEC_PER_G, RACE_TICK_DT, min_def, max_def]
  have e12 : (stepTick ([TOP_SPEED_FPS]) 1 30 1 12
      { cars := [{ res := dnfResX, factor := 3/10, stop := some (3/10), pos := 510167031/125000000, vel := 5485667/500000, finished := none, fired := false }], leader := none }).2 =
      ({ cars := [{ res := dnfResX, factor := 3/10, stop := some (3/10), pos := 602924673/125000000, vel := 1496091/125000, finished := none, fired := false }], leader := none }, false) := by
    norm_num [stepTick, stepCarF, velStep, targetOf, dnfResX, TOP_SPEED_FPS, MPH_TO_FPS,
    TILE_FEET, ACCEL_FPS2, BRAKE_FPS2, FT_PER_SEC_PER_G, RACE_TICK_DT, min_def, max_def]
  have e13 : (stepTick ([TOP_SPEED_FPS]) 1 30 1 13
      { cars := [{ res := dnfResX, factor := 3/10, stop := some (3/10), pos := 602924673/125000000, vel := 1496091/125000, finished := none, fired := false }], leader := none }).2 =
      ({ cars := [{ res := dnfResX, factor := 3/10, stop := some (3/10), pos := 1406824237/250000000, vel := 6483061/500000, finished := none, fired := false }], leader := none }, false) := by
    norm_num [stepTick, stepCarF, velStep, targetOf, dnfResX, TOP_SPEED_FPS, MPH_TO_FPS,
    TILE_FEET, ACCEL_FPS2, BRAKE_FPS2, FT_PER_SEC_PER_G, RACE_TICK_DT, min_def, max_def]
  have e14 : (stepTick ([TOP_SPEED_FPS]) 1 30 1 14
      { cars := [{ res := dnfResX, factor := 3/10, stop := some (3/10), pos := 1406824237/250000000, vel := 6483061/500000, finished := none, fired := false }], leader := none }).2 =
      ({ cars := [{ res := dnfResX, factor := 3/10, stop := some (3/10), pos := 324651747/50000000, vel := 3490879/250000, finished := none, fired := false }], leader := none }, false) := by
    norm_num [stepTick, stepCarF, velStep, targetOf, dnfResX, TOP_SPEED_FPS, MPH_TO_FPS,
    TILE_FEET, ACCEL_FPS2, BRAKE_FPS2, FT_PER_SEC_PER_G, RACE_TICK_DT, min_def, max_def]
  have e15 : (stepTick ([TOP_SPEED_FPS]) 1 30 1 15
      { cars := [{ res := dnfResX, factor := 3/10, stop := some (3/10), pos := 324651747/50000000, vel := 3490879/250000, finished := none, fired := false }], leader := none }).2 =
      ({ cars := [{ res := dnfResX, factor := 3/10, stop := some (3/10), pos := 46378821/6250000, vel := 1496091/100000, finished := none, fired := false }], leader := none }, false) := by
    norm_num [stepTick, stepCarF, velStep, targetOf, dnfResX, TOP_SPEED_FPS, MPH_TO_FPS,
    TILE_FEET, ACCEL_FPS2, BRAKE_FPS2, FT_PER_SEC_PER_G, RACE_TICK_DT, min_def, max_def]
  have e16 : (stepTick ([TOP_SPEED_FPS]) 1 30 1 16
      { cars := [{ res := dnfResX, factor := 3/10, stop := some (3/10), pos := 46378821/6250000, vel := 1496091/100000, finished := none, fired := false }], leader := none }).2 =
      ({ cars := [{ res := dnfResX, factor := 3/10, stop := some (3/10), pos := 262813319/31250000, vel := 498697/31250, finished := none, fired := false }], leader := none }, false) := by
    norm_num [stepTick, stepCarF, velStep, targetOf, dnfResX, TOP_SPEED_FPS, MPH_TO_FPS,
    TILE_FEET, ACCEL_FPS2, BRAKE_FPS2, FT_PER_SEC_PER_G, RACE_TICK_DT, min_def, max_def]
  have e17 : (stepTick ([TOP_SPEED_FPS]) 1 30 1 17
      { cars := [{ res := dnfResX, factor := 3/10, stop := some (3/10), pos := 262813319/31250000, vel := 498697/31250, finished := none, fired := false }], leader := none }).2 =
      ({ cars := [{ res := dnfResX, factor := 3/10, stop := some (3/10), pos := 2365319871/250000000, vel := 8477849/500000, finished := none, fired := false }], leader := none }, false) := by
    norm_num [stepTick, stepCarF, velStep, targetOf, dnfResX, TOP_SPEED_FPS, MPH_TO_FPS,
    TILE_FEET, ACCEL_FPS2, BRAKE_FPS2, FT_PER_SEC_PER_G, RACE_TICK_DT, min_def, max_def]
  have e18 : (stepTick ([TOP_SPEED_FPS]) 1 30 1 18
      { cars := [{ res := dnfResX, factor := 3/10, stop := some (3/10), pos := 2365319871/250000000, vel := 8477849/500000, finished := none, fired := false }], leader := none }).2 =
      ({ cars := [{ res := dnfResX, factor := 3/10, stop := some (3/10), pos := 2365319871/250000000, vel := 0, finished := some 18, fired := true }], leader := none }, true) := by
    norm_num [stepTick, stepCarF, velStep, targetOf, dnfResX, TOP_SPEED_FPS, MPH_TO_FPS,
    TILE_FEET, ACCEL_FPS2, BRAKE_FPS2, FT_PER_SEC_PER_G, RACE_TICK_DT, min_def, max_def]
  have e18b : (stepTick ([TOP_SPEED_FPS]) 1 30 1 18
      { cars := [{ res := dnfResX, factor := 3/10, stop := some (3/10), pos := 2365319871/250000000, vel := 8477849/500000, finished := none, fired := false }], leader := none }).1 =
      { tick := 18, lap_count := 1, cars := [{ car_id := "pD", username := "D", progress := 1577/5000, speed := 0, incident := some ("dnf_start") }] } := by
    norm_num [stepTick, stepCarF, velStep, targetOf, dnfResX, TOP_SPEED_FPS, MPH_TO_FPS,
    TILE_FEET, ACCEL_FPS2, BRAKE_FPS2, FT_PER_SEC_PER_G, RACE_TICK_DT, min_def, max_def,
      roundTo, roundHalfEven]
  have hc0 : initCar (fun _ => 3/10) (maxScoreOf [dnfResX]) dnfResX =
      { res := dnfResX, factor := 3/10, stop := some (3/10), pos := 0, vel := 0, finished := none, fired := false } := by
    norm_num [initCar, maxScoreOf, dnfResX, max_def]
  have hP : profileOf (fun x => x) none = ([TOP_SPEED_FPS], 1) := rfl
  have htot : totalDistanceOf 1 1 = 30 := by norm_num [totalDistanceOf, TILE_FEET]
  have hgts : generate_tick_stream (fun x => x) (fun _ => 3/10) [dnfResX] 1 none =
      (runTicksAux ([TOP_SPEED_FPS]) 1 30 1 MAX_TICKS 0
        { cars := [{ res := dnfResX, factor := 3/10, stop := some (3/10), pos := 0, vel := 0, finished := none, fired := false }], leader := none }).map (fun q2 => q2.1) := by
    unfold generate_tick_stream
    rw [if_neg (by simp : ¬(([dnfResX] : List EntryResult).isEmpty = true))]
    simp only [hP, htot, List.map_cons, List.map_nil, hc0]
  have rfull : runTicksAux ([TOP_SPEED_FPS]) 1 30 1 MAX_TICKS 0
      { cars := [{ res := dnfResX, factor := 3/10, stop := some (3/10), pos := 0, vel := 0, finished := none, fired := false }], leader := none } =
      [((stepTick ([TOP_SPEED_FPS]) 1 30 1 1 { cars := [{ res := dnfResX, factor := 3/10, stop := some (3/10), pos := 0, vel := 0, finished := none, fired := false }], leader := none }).1,
        { cars := [{ res := dnfResX, factor := 3/10, stop := some (3/10), pos := 15459607/250000000, vel := 498697/500000, finished := none, fired := false }], leader := none }),
((stepTick ([TOP_SPEED_FPS]) 1 30 1 2 { cars := [{ res := dnfResX, factor := 3/10, stop := some (3/10), pos := 15459607/250000000, vel := 498697/500000, finished := none, fired := false }], leader := none }).1,
        { cars := [{ res := dnfResX, factor := 3/10, stop := some (3/10), pos := 46378821/250000000, vel := 498697/250000, finished := none, fired := false }], leader := none }),
((stepTick ([TOP_SPEED_FPS]) 1 30 1 3 { cars := [{ res := dnfResX, factor := 3/10, stop := some (3/10), pos := 46378821/250000000, vel := 498697/250000, finished := none, fired := false }], leader := none }).1,
        { cars := [{ res := dnfResX, factor := 3/10, stop := some (3/10), pos := 46378821/125000000, vel := 1496091/500000, finished := none, fired := false }], leader := none }),
((stepTick ([TOP_SPEED_FPS]) 1 30 1 4 { cars := [{ res := dnfResX, factor := 3/10, stop := some (3/10), pos := 46378821/125000000, vel := 1496091/500000, finished := none, fired := false }], leader := none }).1,
        { cars := [{ res := dnfResX, factor := 3/10, stop := some (3/10), pos := 15459607/25000000, vel := 498697/125000, finished := none, fired := false }], leader := none }),
((stepTick ([TOP_SPEED_FPS]) 1 30 1 5 { cars := [{ res := dnfResX, factor := 3/10, stop := some (3/10), pos := 15459607/25000000, vel := 498697/125000, finished := none, fired := false }], leader := none }).1,
        { cars := [{ res := dnfResX, factor := 3/10, stop := some (3/10), pos := 46378821/50000000, vel := 498697/100000, finished := none, fired := false }], leader := none }),
((stepTick ([TOP_SPEED_FPS]) 1 30 1 6 { cars := [{ res := dnfResX, factor := 3/10, stop := some (3/10), pos := 46378821/50000000, vel := 498697/100000, finished := none, fired := false }], leader := none }).1,
        { cars := [{ res := dnfResX, factor := 3/10, stop := some (3/10), pos := 324651747/250000000, vel := 1496091/250000, finished := none, fired := false }], leader := none }),
((stepTick ([TOP_SPEED_FPS]) 1 30 1 7 { cars := [{ res := dnfResX, factor := 3/10, stop := some (3/10), pos := 324651747/250000000, vel := 1496091/250000, finished := none, fired := false }], leader := none }).1,
        { cars := [{ res := dnfResX, factor := 3/10, stop := some (3/10), pos := 108217249/62500000, vel := 3490879/500000, finished := none, fired := false }], leader := none }),
((stepTick ([TOP_SPEED_FPS]) 1 30 1 8 { cars := [{ res := dnfResX, factor := 3/10, stop := some (3/10), pos := 108217249/62500000, vel := 3490879/500000, finished := none, fired := false }], leader := none }).1,
        { cars := [{ res := dnfResX, factor := 3/10, stop := some (3/10), pos := 139136463/62500000, vel := 498697/62500, finished := none, fired := false }], leader := none }),
((stepTick ([TOP_SPEED_FPS]) 1 30 1 9 { cars := [{ res := dnfResX, factor := 3/10, stop := some (3/10), pos := 139136463/62500000, vel := 498697/62500, finished := none, fired := false }], leader := none }).1,
        { cars := [{ res := dnfResX, factor := 3/10, stop := some (3/10), pos := 139136463/50000000, vel := 4488273/500000, finished := none, fired := false }], leader := none }),
((stepTick ([TOP_SPEED_FPS]) 1 30 1 10 { cars := [{ res := dnfResX, factor := 3/10, stop := some (3/10), pos := 139136463/50000000, vel := 4488273/500000, finished := none, fired := false }], leader := none }).1,
        { cars := [{ res := dnfResX, factor := 3/10, stop := some (3/10), pos := 170055677/50000000, vel := 498697/50000, finished := none, fired := false }], leader := none }),
((stepTick ([TOP_SPEED_FPS]) 1 30 1 11 { cars := [{ res := dnfResX, factor := 3/10, stop := some (3/10), pos := 170055677/50000000, vel := 498697/50000, finished := none, fired := false }], leader := none }).1,
        { cars := [{ res := dnfResX, factor := 3/10, stop := some (3/10), pos := 510167031/125000000, vel := 5485667/500000, finished := none, fired := false }], leader := none }),
((stepTick ([TOP_SPEED_FPS]) 1 30 1 12 { cars := [{ res := dnfResX, factor := 3/10, stop := some (3/10), pos := 510167031/125000000, vel := 5485667/500000, finished := none, fired := false }], leader := none }).1,
        { cars := [{ res := dnfResX, factor := 3/10, stop := some (3/10), pos := 602924673/125000000, vel := 1496091/125000, finished := none, fired := false }], leader := none }),
((stepTick ([TOP_SPEED_FPS]) 1 30 1 13 { cars := [{ res := dnfResX, factor := 3/10, stop := some (3/10), pos := 602924673/125000000, vel := 1496091/125000, finished := none, fired := false }], leader := none }).1,
        { cars := [{ res := dnfResX, factor := 3/10, stop := some (3/10), pos := 1406824237/250000000, vel := 6483061/500000, finished := none, fired := false }], leader := none }),
((stepTick ([TOP_SPEED_FPS]) 1 30 1 14 { cars := [{ res := dnfResX, factor := 3/10, stop := some (3/10), pos := 1406824237/250000000, vel := 6483061/500000, finished := none, fired := false }], leader := none }).1,
        { cars := [{ res := dnfResX, factor := 3/10, stop := some (3/10), pos := 324651747/50000000, vel := 3490879/250000, finished := none, fired := false }], leader := none }),
((stepTick ([TOP_SPEED_FPS]) 1 30 1 15 { cars := [{ res := dnfResX, factor := 3/10, stop := some (3/10), pos := 324651747/50000000, vel := 3490879/250000, finished := none, fired := false }], leader := none }).1,
        { cars := [{ res := dnfResX, factor := 3/10, stop := some (3/10), pos := 46378821/6250000, vel := 1496091/100000, finished := none, fired := false }], leader := none }),
((stepTick ([TOP_SPEED_FPS]) 1 30 1 16 { cars := [{ res := dnfResX, factor := 3/10, stop := some (3/10), pos := 46378821/6250000, vel := 1496091/100000, finished := none, fired := false }], leader := none }).1,
        { cars := [{ res := dnfResX, factor := 3/10, stop := some (3/10), pos := 262813319/31250000, vel := 498697/31250, finished := none, fired := false }], leader := none }),
((stepTick ([TOP_SPEED_FPS]) 1 30 1 17 { cars := [{ res := dnfResX, factor := 3/10, stop := some (3/10), pos := 262813319/31250000, vel := 498697/31250, finished := none, fired := false }], leader := none }).1,
        { cars := [{ res := dnfResX, factor := 3/10, stop := some (3/10), pos := 2365319871/250000000, vel := 8477849/500000, finished := none, fired := false }], leader := none }),
((stepTick ([TOP_SPEED_FPS]) 1 30 1 18 { cars := [{ res := dnfResX, factor := 3/10, stop := some (3/10), pos := 2365319871/250000000, vel := 8477849/500000, finished := none, fired := false }], leader := none }).1,
        { cars := [{ res := dnfResX, factor := 3/10, stop := some (3/10), pos := 2365319871/250000000, vel := 0, finished := some 18, fired := true }], leader := none })] := by
    rw [(by norm_num [MAX_TICKS] : MAX_TICKS = 199999 + 1),
      runTicksAux_step ([TOP_SPEED_FPS]) 1 30 1 199999 0
        { cars := [{ res := dnfResX, factor := 3/10, stop := some (3/10), pos := 0, vel := 0, finished := none, fired := false }], leader := none }
        { cars := [{ res := dnfResX, factor := 3/10, stop := some (3/10), pos := 15459607/250000000, vel := 498697/500000, finished := none, fired := false }], leader := none } false e1,
      if_neg Bool.false_ne_true]
    rw [(by norm_num : (199999:ℕ) = 199998 + 1),
      runTicksAux_step ([TOP_SPEED_FPS]) 1 30 1 199998 1
        { cars := [{ res := dnfResX, factor := 3/10, stop := some (3/10), pos := 15459607/250000000, vel := 498697/500000, finished := none, fired := false }], leader := none }
        { cars := [{ res := dnfResX, factor := 3/10, stop := some (3/10), pos := 46378821/250000000, vel := 498697/250000, finished := none, fired := false }], leader := none } false e2,
      if_neg Bool.false_ne_true]
    rw [(by norm_num : (199998:ℕ) = 199997 + 1),
      runTicksAux_step ([TOP_SPEED_FPS]) 1 30 1 199997 2
        { cars := [{ res := dnfResX, factor := 3/10, stop := some (3/10), pos := 46378821/250000000, vel := 498697/250000, finished := none, fired := false }], leader := none }
        { cars := [{ res := dnfResX, factor := 3/10, stop := some (3/10), pos := 46378821/125000000, vel := 1496091/500000, finished := none, fired := false }], leader := none } false e3,
      if_neg Bool.false_ne_true]
    rw [(by norm_num : (199997:ℕ) = 199996 + 1),
      runTicksAux_step ([TOP_SPEED_FPS]) 1 30 1 199996 3
        { cars := [{ res := dnfResX, factor := 3/10, stop := some (3/10), pos := 46378821/125000000, vel := 1496091/500000, finished := none, fired := false }], leader := none }
        { cars := [{ res := dnfResX, factor := 3/10, stop := some (3/10), pos := 15459607/25000000, vel := 498697/125000, finished := none, fired := false }], leader := none } false e4,
      if_neg Bool.false_ne_true]
    rw [(by norm_num : (199996:ℕ) = 199995 + 1),
      runTicksAux_step ([TOP_SPEED_FPS]) 1 30 1 199995 4
        { cars := [{ res := dnfResX, factor := 3/10, stop := some (3/10), pos := 15459607/25000000, vel := 498697/125000, finished := none, fired := false }], leader := none }
        { cars := [{ res := dnfResX, factor := 3/10, stop := some (3/10), pos := 46378821/50000000, vel := 498697/100000, finished := none, fired := false }], leader := none } false e5,
      if_neg Bool.false_ne_true]
    rw [(by norm_num : (199995:ℕ) = 199994 + 1),
      runTicksAux_step ([TOP_SPEED_FPS]) 1 30 1 199994 5
        { cars := [{ res := dnfResX, factor := 3/10, stop := some (3/10), pos := 46378821/50000000, vel := 498697/100000, finished := none, fired := false }], leader := none }
        { cars := [{ res := dnfResX, factor := 3/10, stop := some (3/10), pos := 324651747/250000000, vel := 1496091/250000, finished := none, fired := false }], leader := none } false e6,
      if_neg Bool.false_ne_true]
    rw [(by norm_num : (199994:ℕ) = 199993 + 1),
      runTicksAux_step ([TOP_SPEED_FPS]) 1 30 1 199993 6
        { cars := [{ res := dnfResX, factor := 3/10, stop := some (3/10), pos := 324651747/250000000, vel := 1496091/250000, finished := none, fired := false }], leader := none }
        { cars := [{ res := dnfResX, factor := 3/10, stop := some (3/10), pos := 108217249/62500000, vel := 3490879/500000, finished := none, fired := false }], leader := none } false e7,
      if_neg Bool.false_ne_true]
    rw [(by norm_num : (199993:ℕ) = 199992 + 1),
      runTicksAux_step ([TOP_SPEED_FPS]) 1 30 1 199992 7
        { cars := [{ res := dnfResX, factor := 3/10, stop := some (3/10), pos := 108217249/62500000, vel := 3490879/500000, finished := none, fired := false }], leader := none }
        { cars := [{ res := dnfResX, factor := 3/10, stop := some (3/10), pos := 139136463/62500000, vel := 498697/62500, finished := none, fired := false }], leader := none } false e8,
      if_neg Bool.false_ne_true]
    rw [(by norm_num : (199992:ℕ) = 199991 + 1),
      runTicksAux_step ([TOP_SPEED_FPS]) 1 30 1 199991 8
        { cars := [{ res := dnfResX, factor := 3/10, stop := some (3/10), pos := 139136463/62500000, vel := 498697/62500, finished := none, fired := false }], leader := none }
        { cars := [{ res := dnfResX, factor := 3/10, stop := some (3/10), pos := 139136463/50000000, vel := 4488273/500000, finished := none, fired := false }], leader := none } false e9,
      if_neg Bool.false_ne_true]
    rw [(by norm_num : (199991:ℕ) = 199990 + 1),
      runTicksAux_step ([TOP_SPEED_FPS]) 1 30 1 199990 9
        { cars := [{ res := dnfResX, factor := 3/10, stop := some (3/10), pos := 139136463/50000000, vel := 4488273/500000, finished := none, fired := false }], leader := none }
        { cars := [{ res := dnfResX, factor := 3/10, stop := some (3/10), pos := 170055677/50000000, vel := 498697/50000, finished := none, fired := false }], leader := none } false e10,
      if_neg Bool.false_ne_true]
    rw [(by norm_num : (199990:ℕ) = 199989 + 1),
      runTicksAux_step ([TOP_SPEED_FPS]) 1 30 1 199989 10
        { cars := [{ res := dnfResX, factor := 3/10, stop := some (3/10), pos := 170055677/50000000, vel := 498697/50000, finished := none, fired := false }], leader := none }
        { cars := [{ res := dnfResX, factor := 3/10, stop := some (3/10), pos := 510167031/125000000, vel := 5485667/500000, finished := none, fired := false }], leader := none } false e11,
      if_neg Bool.false_ne_true]
    rw [(by norm_num : (199989:ℕ) = 199988 + 1),
      runTicksAux_step ([TOP_SPEED_FPS]) 1 30 1 199988 11
        { cars := [{ res := dnfResX, factor := 3/10, stop := some (3/10), pos := 510167031/125000000, vel := 5485667/500000, finished := none, fired := false }], leader := none }
        { cars := [{ res := dnfResX, factor := 3/10, stop := some (3/10), pos := 602924673/125000000, vel := 1496091/125000, finished := none, fired := false }], leader := none } false e12,
      if_neg Bool.false_ne_true]
    rw [(by norm_num : (199988:ℕ) = 199987 + 1),
      runTicksAux_step ([TOP_SPEED_FPS]) 1 30 1 199987 12
        { cars := [{ res := dnfResX, factor := 3/10, stop := some (3/10), pos := 602924673/125000000, vel := 1496091/125000, finished := none, fired := false }], leader := none }
        { cars := [{ res := dnfResX, factor := 3/10, stop := some (3/10), pos := 1406824237/250000000, vel := 6483061/500000, finished := none, fired := false }], leader := none } false e13,
      if_neg Bool.false_ne_true]
    rw [(by norm_num : (199987:ℕ) = 199986 + 1),
      runTicksAux_step ([TOP_SPEED_FPS]) 1 30 1 199986 13
        { cars := [{ res := dnfResX, factor := 3/10, stop := some (3/10), pos := 1406824237/250000000, vel := 6483061/500000, finished := none, fired := false }], leader := none }
        { cars := [{ res := dnfResX, factor := 3/10, stop := some (3/10), pos := 324651747/50000000, vel := 3490879/250000, finished := none, fired := false }], leader := none } false e14,
      if_neg Bool.false_ne_true]
    rw [(by norm_num : (199986:ℕ) = 199985 + 1),
      runTicksAux_step ([TOP_SPEED_FPS]) 1 30 1 199985 14
        { cars := [{ res := dnfResX, factor := 3/10, stop := some (3/10), pos := 324651747/50000000, vel := 3490879/250000, finished := none, fired := false }], leader := none }
        { cars := [{ res := dnfResX, factor := 3/10, stop := some (3/10), pos := 46378821/6250000, vel := 1496091/100000, finished := none, fired := false }], leader := none } false e15,
      if_neg Bool.false_ne_true]
    rw [(by norm_num : (199985:ℕ) = 199984 + 1),
      runTicksAux_step ([TOP_SPEED_FPS]) 1 30 1 199984 15
        { cars := [{ res := dnfResX, factor := 3/10, stop := some (3/10), pos := 46378821/6250000, vel := 1496091/100000, finished := none, fired := false }], leader := none }
        { cars := [{ res := dnfResX, factor := 3/10, stop := some (3/10), pos := 262813319/31250000, vel := 498697/31250, finished := none, fired := false }], leader := none } false e16,
      if_neg Bool.false_ne_true]
    rw [(by norm_num : (199984:ℕ) = 199983 + 1),
      runTicksAux_step ([TOP_SPEED_FPS]) 1 30 1 199983 16
        { cars := [{ res := dnfResX, factor := 3/10, stop := some (3/10), pos := 262813319/31250000, vel := 498697/31250, finished := none, fired := false }], leader := none }
        { cars := [{ res := dnfResX, factor := 3/10, stop := some (3/10), pos := 2365319871/250000000, vel := 8477849/500000, finished := none, fired := false }], leader := none } false e17,
      if_neg Bool.false_ne_true]
    rw [(by norm_num : (199983:ℕ) = 199982 + 1),
      runTicksAux_step ([TOP_SPEED_FPS]) 1 30 1 199982 17
        { cars := [{ res := dnfResX, factor := 3/10, stop := some (3/10), pos := 2365319871/250000000, vel := 8477849/500000, finished := none, fired := false }], leader := none }
        { cars := [{ res := dnfResX, factor := 3/10, stop := some (3/10), pos := 2365319871/250000000, vel := 0, finished := some 18, fired := true }], leader := none } true e18,
      if_pos rfl]
  refine ⟨rfl, ?_, ?_, by norm_num⟩
  · rw [hgts, rfull]
    rfl
  · rw [hgts, rfull]
    show ((stepTick ([TOP_SPEED_FPS]) 1 30 1 18
      { cars := [{ res := dnfResX, factor := 3/10, stop := some (3/10), pos := 2365319871/250000000, vel := 8477849/500000, finished := none, fired := false }], leader := none }).1).cars =
      [{ car_id := "pD", username := "D", progress := 1577/5000, speed := 0, incident := some ("dnf_start") }]
    rw [e18b]

end RaceSim
